import Mathlib

/-!
# NAS access rule and SMB ACL attachment resource handlers

A shallow embedding of the two Terraform resource handlers

* `alicloud/resource_alicloud_nas_access_rule.go`
* `alicloud/resource_alicloud_nas_smb_acl_attachment.go`

Every handler is a function from the resource data `d` and the history of
remote calls made so far to an `Outcome`: how the handler left (returned an
error value, or panicked), the resource data it leaves behind, and the
extended call history.  The remote side is a deterministic function of the
call history (`Env`), so a handler run can be evaluated on concrete inputs.

Not modelled: logging (`log.Printf`, `addDebug`), the sleep performed by
`incrementalWait`, and the coercion `d.Set` applies to the written value.
-/

namespace Alicloud

/-! ## Values and maps -/

/-- Dynamic values: what a Go `interface{}` holds in request maps, response
maps and resource attributes. -/
inductive Value where
  | null
  | str (s : String)
  | int (n : Int)
  | bool (b : Bool)
  deriving DecidableEq, Repr

namespace Value

/-- Whether the dynamic type is `string`. -/
def isString : Value → Bool
  | str _ => true
  | _ => false

/-- Whether the value is the zero value of its type (what makes `GetOk`
answer `ok = false`). -/
def isZero : Value → Bool
  | null => true
  | str s => s == ""
  | int n => n == 0
  | bool b => !b

/-- The default format (`%v`) of a value. -/
def format : Value → String
  | null => "<nil>"
  | str s => s
  | int n => toString n
  | bool b => toString b

end Value

/-- A Go `map[string]interface{}`: the most recent assignment to a key is the
first entry with that key. -/
structure GoMap where
  entries : List (String × Value)
  deriving DecidableEq, Repr

namespace GoMap

/-- The result of `make(map[string]interface{})`. -/
def empty : GoMap := ⟨[]⟩

/-- The entry for `key`, if the map has one. -/
def find? (m : GoMap) (key : String) : Option Value := m.entries.lookup key

/-- The index expression `m[key]`: nil when the key is absent. -/
def index (m : GoMap) (key : String) : Value := (m.find? key).getD Value.null

/-- The assignment `m[key] = v`. -/
def assign (m : GoMap) (key : String) (v : Value) : GoMap := ⟨(key, v) :: m.entries⟩

/-- The guarded assignment `if c { m[key] = v }`. -/
def assignIf (m : GoMap) (c : Bool) (key : String) (v : Value) : GoMap :=
  if c then m.assign key v else m

end GoMap

/-! ## Errors, panics, calls -/

/-- Go error values that the handlers see. -/
inductive Error where
  /-- A failure returned by the SDK client or by the describe service. -/
  | remote (code : String)
  /-- The failure of `ParseResourceId`. -/
  | invalidResourceId (id : String) (length got : Nat)
  /-- An error wrapped by `WrapError`. -/
  | wrapped (cause : Error)
  /-- An error wrapped by `WrapErrorf`. -/
  | wrappedf (cause : Error) (msg : String) (args : List String)
  deriving DecidableEq, Repr

/-- Run-time panics a handler can raise. -/
inductive Panic where
  /-- The slice index `parts[index]` with `len(parts) = length`. -/
  | indexOutOfRange (index length : Nat)
  /-- The type assertion `v.(string)` on a value that is not a string. -/
  | typeAssertion (v : Value)
  /-- A panic inside `formatInt`. -/
  | formatInt (v : Value)
  deriving DecidableEq, Repr

/-- A remote call, as recorded in the call history. -/
inductive Call where
  | DoRequest (action : String) (request : GoMap)
  | DescribeNasAccessRule (id : String)
  | DescribeNasSmbAcl (id : String)
  deriving DecidableEq, Repr

/-- Modelled from the spec: `WrapError` is declared outside the two source
files; it is taken to return an error that records its cause. -/
def WrapError (err : Error) : Error := Error.wrapped err

/-- Modelled from the spec: `WrapErrorf` is declared outside the two source
files; it is taken to return an error that records its cause, the message
format and the arguments. -/
def WrapErrorf (cause : Error) (msg : String) (args : List String) : Error :=
  Error.wrappedf cause msg args

/-- The client (`meta`), the remote service and the repository helpers that
are declared outside the two source files.  The remote answers are functions
of the history of calls made before. -/
structure Env where
  /-- The field `client.Region`. -/
  Region : String
  /-- The field `client.RegionId`. -/
  RegionId : String
  /-- The error of `client.NewNasClient()`, if it fails. -/
  NewNasClient : Option Error
  /-- The call `conn.DoRequest(action, ..., request, ...)`. -/
  DoRequest : List Call → String → GoMap → Except Error GoMap
  /-- The call `nasService.DescribeNasAccessRule(id)`. -/
  DescribeNasAccessRule : List Call → String → Except Error GoMap
  /-- The call `nasService.DescribeNasSmbAcl(id)`. -/
  DescribeNasSmbAcl : List Call → String → Except Error GoMap
  /-- The helper `NeedRetry`. -/
  NeedRetry : Error → Bool
  /-- The helper `NotFoundError`. -/
  NotFoundError : Error → Bool
  /-- The helper `IsExpectedErrors`. -/
  IsExpectedErrors : Error → List String → Bool
  /-- The helper `formatInt`; `none` when it panics. -/
  formatInt : Value → Option Int
  /-- The constant `DefaultErrorMsg`. -/
  DefaultErrorMsg : String
  /-- The constant `AlibabaCloudSdkGoERROR`. -/
  AlibabaCloudSdkGoERROR : String

/-! ## Resource data -/

/-- The keys of `d.Timeout`. -/
inductive TimeoutKey where
  | TimeoutCreate
  | TimeoutUpdate
  | TimeoutDelete
  deriving DecidableEq, Repr

/-- The `schema.ResourceData` of one handler run. -/
structure ResourceData where
  /-- The resource id. -/
  id : String
  /-- The attributes of the prior state. -/
  old : GoMap
  /-- The planned attributes: the prior state with the diff applied. -/
  new : GoMap
  /-- The attributes written by `d.Set` during the run. -/
  set : GoMap
  /-- For each timeout, the number of further attempts of a retried call that
  fit into it after the first attempt. -/
  retriesCreate : Nat
  retriesUpdate : Nat
  retriesDelete : Nat
  deriving DecidableEq, Repr

namespace ResourceData

/-- The method `d.Id()`. -/
def Id (d : ResourceData) : String := d.id

/-- The method `d.SetId(v)`. -/
def SetId (d : ResourceData) (v : String) : ResourceData := { d with id := v }

/-- The method `d.Get(key)`: the value written by `d.Set` if there is one,
else the planned value.  An attribute that has neither reads as nil here; the
SDK gives the zero value of its schema type, so `new` is meant to hold every
attribute of the schema. -/
def Get (d : ResourceData) (key : String) : Value :=
  match d.set.find? key with
  | some v => v
  | none => d.new.index key

/-- The method `d.GetOk(key)`: the value, and whether it is not the zero value. -/
def GetOk (d : ResourceData) (key : String) : Value × Bool :=
  (d.Get key, !(d.Get key).isZero)

/-- The method `d.HasChange(key)`: the prior and the planned value differ. -/
def HasChange (d : ResourceData) (key : String) : Bool :=
  d.old.index key != d.new.index key

/-- The method `d.Set(key, value)`.  The value is stored as it is given: the
conversion to the schema type of the attribute, and the error `d.Set` returns
when that conversion fails (which the handlers drop), are not modelled, so
the stored value is the SDK's when it has the schema type of the attribute. -/
def Set (d : ResourceData) (key : String) (value : Value) : ResourceData :=
  { d with set := d.set.assign key value }

/-- The method `d.Timeout(key)`, as the number of further attempts it admits. -/
def Timeout (d : ResourceData) : TimeoutKey → Nat
  | TimeoutKey.TimeoutCreate => d.retriesCreate
  | TimeoutKey.TimeoutUpdate => d.retriesUpdate
  | TimeoutKey.TimeoutDelete => d.retriesDelete

end ResourceData

/-! ## Library functions -/

/-- Splitting a list of characters at every occurrence of `sep`. -/
def splitChars (sep : Char) : List Char → List (List Char)
  | [] => [[]]
  | c :: cs =>
    if c = sep then [] :: splitChars sep cs
    else
      match splitChars sep cs with
      | [] => [[c]]
      | p :: ps => (c :: p) :: ps

/-- The library function `strings.Split(s, sep)` for a separator of one ASCII
character, the only way the handlers call it (`sep = ":"`). -/
def strings.Split (s : String) (sep : Char) : List String :=
  (splitChars sep s.data).map String.mk

/-- The library function `fmt.Sprint`: the operands in their default format,
with a space between two operands when neither is a string. -/
def fmt.Sprint : List Value → String
  | [] => ""
  | [a] => a.format
  | a :: b :: rest =>
    a.format ++ (if !a.isString && !b.isString then " " else "") ++ fmt.Sprint (b :: rest)

/-- The slice index `parts[i]`. -/
def sliceIndex (parts : List String) (i : Nat) : Except Panic String :=
  match parts.get? i with
  | some p => .ok p
  | none => .error (Panic.indexOutOfRange i parts.length)

/-- The type assertion `v.(string)`. -/
def assertString (v : Value) : Except Panic String :=
  match v with
  | Value.str s => .ok s
  | _ => .error (Panic.typeAssertion v)

/-- The guard `ok && v.(string) != ""` applied to `v, ok := d.GetOk(key)`; the
error case is the panic of the type assertion, which is evaluated only when
`ok` holds. -/
def nonEmptyString (r : Value × Bool) : Except Panic Bool :=
  if r.2 then
    match assertString r.1 with
    | .ok s => .ok (s != "")
    | .error p => .error p
  else .ok false

/-- Modelled from the spec: `ParseResourceId` is declared outside the two
source files.  The id is split on ":" and the call fails unless the split has
exactly `length` parts. -/
def ParseResourceId (id : String) (length : Nat) : Except Error (List String) :=
  let parts := strings.Split id ':'
  if parts.length ≠ length then
    .error (WrapError (Error.invalidResourceId id length parts.length))
  else .ok parts

/-- The value `*resource.RetryError`. -/
structure RetryError where
  Err : Error
  Retryable : Bool
  deriving DecidableEq, Repr

/-- The constructor `resource.RetryableError`. -/
def RetryableError (err : Error) : RetryError := ⟨err, true⟩

/-- The constructor `resource.NonRetryableError`. -/
def NonRetryableError (err : Error) : RetryError := ⟨err, false⟩

/-- The library function `resource.Retry(timeout, f)`: `f` runs until it
returns nil or a non-retryable error, or until the timeout has passed, when
the last error is returned.  The timeout is the number of further attempts
that fit into it after the first; `f` acts on the state `σ` of the variables
it captures. -/
def Retry {σ : Type} : Nat → (σ → Option RetryError × σ) → σ → Option Error × σ
  | 0, f, s =>
    match f s with
    | (none, s1) => (none, s1)
    | (some re, s1) => (some re.Err, s1)
  | n + 1, f, s =>
    match f s with
    | (none, s1) => (none, s1)
    | (some re, s1) => if re.Retryable then Retry n f s1 else (some re.Err, s1)

/-! ## Handler outcomes -/

/-- How a handler run ended. -/
inductive Exit where
  /-- The handler returned `err` (`none` is nil). -/
  | returned (err : Option Error)
  /-- The handler panicked. -/
  | panicked (p : Panic)
  deriving DecidableEq, Repr

/-- What a handler run leaves behind. -/
structure Outcome where
  exit : Exit
  d : ResourceData
  calls : List Call
  deriving DecidableEq, Repr

/-- The variables captured by the function literal handed to `resource.Retry`:
`response`, and the call history. -/
structure Attempted where
  response : GoMap
  calls : List Call
  deriving DecidableEq, Repr

/-- The function literal every handler hands to `resource.Retry`: one
`conn.DoRequest`, classified by `NeedRetry`.  A failed call leaves the nil map
in `response`. -/
def attempt (env : Env) (action : String) (request : GoMap) (s : Attempted) :
    Option RetryError × Attempted :=
  let calls := s.calls ++ [Call.DoRequest action request]
  match env.DoRequest s.calls action request with
  | .error err =>
    if env.NeedRetry err then (some (RetryableError err), ⟨GoMap.empty, calls⟩)
    else (some (NonRetryableError err), ⟨GoMap.empty, calls⟩)
  | .ok response => (none, ⟨response, calls⟩)

/-! ## alicloud_nas_access_rule -/

/-- The last lines of `resourceAlicloudNasAccessRuleRead`: the attributes
taken from the described object. -/
def resourceAlicloudNasAccessRuleRead.fromObject (env : Env) (d : ResourceData)
    (object : GoMap) (calls : List Call) : Outcome :=
  let d := d.Set "source_cidr_ip" (object.index "SourceCidrIp")
  match env.formatInt (object.index "Priority") with
  | none => ⟨Exit.panicked (Panic.formatInt (object.index "Priority")), d, calls⟩
  | some priority =>
    let d := d.Set "priority" (Value.int priority)
    let d := d.Set "rw_access_type" (object.index "RWAccess")
    let d := d.Set "user_access_type" (object.index "UserAccess")
    let d := d.Set "ipv6_source_cidr_ip" (object.index "Ipv6SourceCidrIp")
    ⟨Exit.returned none, d, calls⟩

/-- The handler `resourceAlicloudNasAccessRuleRead`. -/
def resourceAlicloudNasAccessRuleRead (env : Env) (d : ResourceData) (calls : List Call) :
    Outcome :=
  let calls1 := calls ++ [Call.DescribeNasAccessRule d.Id]
  match env.DescribeNasAccessRule calls d.Id with
  | .error err =>
    if env.NotFoundError err then ⟨Exit.returned none, d.SetId "", calls1⟩
    else ⟨Exit.returned (some (WrapError err)), d, calls1⟩
  | .ok object =>
    let parts := strings.Split d.Id ':'
    match sliceIndex parts 0 with
    | .error p => ⟨Exit.panicked p, d, calls1⟩
    | .ok parts0 =>
      let d := d.Set "access_group_name" (Value.str parts0)
      match sliceIndex parts 1 with
      | .error p => ⟨Exit.panicked p, d, calls1⟩
      | .ok parts1 =>
        let d := d.Set "access_rule_id" (Value.str parts1)
        if parts.length = 2 then
          let d := d.SetId (parts0 ++ ":" ++ parts1 ++ ":" ++ "standard")
          let d := d.Set "file_system_type" (Value.str "standard")
          resourceAlicloudNasAccessRuleRead.fromObject env d object calls1
        else
          match sliceIndex parts 2 with
          | .error p => ⟨Exit.panicked p, d, calls1⟩
          | .ok parts2 =>
            let d := d.Set "file_system_type" (Value.str parts2)
            resourceAlicloudNasAccessRuleRead.fromObject env d object calls1

/-- The request map built by `resourceAlicloudNasAccessRuleCreate`; the error
case is the panic of a type assertion `v.(string)`. -/
def resourceAlicloudNasAccessRuleCreate.request (env : Env) (d : ResourceData) :
    Except Panic GoMap := do
  let request := GoMap.empty
  let request := request.assign "RegionId" (Value.str env.Region)
  let request := request.assign "AccessGroupName" (d.Get "access_group_name")
  let present ← nonEmptyString (d.GetOk "rw_access_type")
  let request := request.assignIf present "RWAccessType" (d.GetOk "rw_access_type").1
  let present ← nonEmptyString (d.GetOk "user_access_type")
  let request := request.assignIf present "UserAccessType" (d.GetOk "user_access_type").1
  let present ← nonEmptyString (d.GetOk "source_cidr_ip")
  let request := request.assignIf present "SourceCidrIp" (d.Get "source_cidr_ip")
  let present ← nonEmptyString (d.GetOk "ipv6_source_cidr_ip")
  let request := request.assignIf present "Ipv6SourceCidrIp" (d.Get "ipv6_source_cidr_ip")
  let request := request.assign "Priority" (d.Get "priority")
  let request := request.assign "FileSystemType" (d.Get "file_system_type")
  return request

/-- The handler `resourceAlicloudNasAccessRuleCreate`. -/
def resourceAlicloudNasAccessRuleCreate (env : Env) (d : ResourceData) (calls : List Call) :
    Outcome :=
  let action := "CreateAccessRule"
  match env.NewNasClient with
  | some err => ⟨Exit.returned (some (WrapError err)), d, calls⟩
  | none =>
    match resourceAlicloudNasAccessRuleCreate.request env d with
    | .error p => ⟨Exit.panicked p, d, calls⟩
    | .ok request =>
      match Retry (d.Timeout TimeoutKey.TimeoutCreate) (attempt env action request)
          ⟨GoMap.empty, calls⟩ with
      | (some err, s) =>
        ⟨Exit.returned (some (WrapErrorf err env.DefaultErrorMsg
          ["alicloud_nas_access_rule", action, env.AlibabaCloudSdkGoERROR])), d, s.calls⟩
      | (none, s) =>
        let d := d.SetId (fmt.Sprint [request.index "AccessGroupName", Value.str ":",
          s.response.index "AccessRuleId", Value.str ":", request.index "FileSystemType"])
        resourceAlicloudNasAccessRuleRead env d s.calls

/-- The request map and the `update` flag built by
`resourceAlicloudNasAccessRuleUpdate` from the parsed id; the error case is a
panic. -/
def resourceAlicloudNasAccessRuleUpdate.request (env : Env) (d : ResourceData)
    (parts : List String) : Except Panic (GoMap × Bool) := do
  let request := GoMap.empty
  let request := request.assign "RegionId" (Value.str env.RegionId)
  let request := request.assign "AccessGroupName" (Value.str (← sliceIndex parts 0))
  let request := request.assign "AccessRuleId" (Value.str (← sliceIndex parts 1))
  let request := request.assign "FileSystemType" (Value.str (← sliceIndex parts 2))
  let update := false
  let update := if d.HasChange "rw_access_type" then true else update
  let request := request.assign "RWAccessType" (d.Get "rw_access_type")
  let update := if d.HasChange "user_access_type" then true else update
  let request := request.assign "UserAccessType" (d.Get "user_access_type")
  let update := if d.HasChange "priority" then true else update
  let request := request.assign "Priority" (d.Get "priority")
  let present ← nonEmptyString (d.GetOk "ipv6_source_cidr_ip")
  let update := if present then true else update
  let request := request.assignIf present "Ipv6SourceCidrIp" (d.Get "ipv6_source_cidr_ip")
  let present ← nonEmptyString (d.GetOk "source_cidr_ip")
  let update := if present then true else update
  let request := request.assignIf present "SourceCidrIp" (d.Get "source_cidr_ip")
  return (request, update)

/-- The handler `resourceAlicloudNasAccessRuleUpdate`. -/
def resourceAlicloudNasAccessRuleUpdate (env : Env) (d : ResourceData) (calls : List Call) :
    Outcome :=
  match env.NewNasClient with
  | some err => ⟨Exit.returned (some (WrapError err)), d, calls⟩
  | none =>
    match ParseResourceId d.Id 3 with
    | .error err => ⟨Exit.returned (some (WrapError err)), d, calls⟩
    | .ok parts =>
      match resourceAlicloudNasAccessRuleUpdate.request env d parts with
      | .error p => ⟨Exit.panicked p, d, calls⟩
      | .ok (request, update) =>
        if update then
          let action := "ModifyAccessRule"
          match Retry (d.Timeout TimeoutKey.TimeoutUpdate) (attempt env action request)
              ⟨GoMap.empty, calls⟩ with
          | (some err, s) =>
            ⟨Exit.returned (some (WrapErrorf err env.DefaultErrorMsg
              [d.Id, action, env.AlibabaCloudSdkGoERROR])), d, s.calls⟩
          | (none, s) => resourceAlicloudNasAccessRuleRead env d s.calls
        else resourceAlicloudNasAccessRuleRead env d calls

/-- The request map built by `resourceAlicloudNasAccessRuleDelete` from the
parsed id; the error case is a panic. -/
def resourceAlicloudNasAccessRuleDelete.request (env : Env) (parts : List String) :
    Except Panic GoMap := do
  let request := GoMap.empty
  let request := request.assign "RegionId" (Value.str env.RegionId)
  let request := request.assign "AccessGroupName" (Value.str (← sliceIndex parts 0))
  let request := request.assign "AccessRuleId" (Value.str (← sliceIndex parts 1))
  let request := request.assign "FileSystemType" (Value.str (← sliceIndex parts 2))
  return request

/-- The handler `resourceAlicloudNasAccessRuleDelete`. -/
def resourceAlicloudNasAccessRuleDelete (env : Env) (d : ResourceData) (calls : List Call) :
    Outcome :=
  let action := "DeleteAccessRule"
  match env.NewNasClient with
  | some err => ⟨Exit.returned (some (WrapError err)), d, calls⟩
  | none =>
    match ParseResourceId d.Id 3 with
    | .error err => ⟨Exit.returned (some (WrapError err)), d, calls⟩
    | .ok parts =>
      match resourceAlicloudNasAccessRuleDelete.request env parts with
      | .error p => ⟨Exit.panicked p, d, calls⟩
      | .ok request =>
        match Retry (d.Timeout TimeoutKey.TimeoutDelete) (attempt env action request)
            ⟨GoMap.empty, calls⟩ with
        | (some err, s) =>
          if env.IsExpectedErrors err ["Forbidden.NasNotFound"] then
            ⟨Exit.returned none, d, s.calls⟩
          else
            ⟨Exit.returned (some (WrapErrorf err env.DefaultErrorMsg
              [d.Id, action, env.AlibabaCloudSdkGoERROR])), d, s.calls⟩
        | (none, s) => ⟨Exit.returned none, d, s.calls⟩

/-! ## alicloud_nas_smb_acl_attachment -/

/-- The handler `resourceAlicloudNasSmbAclAttachmentRead`. -/
def resourceAlicloudNasSmbAclAttachmentRead (env : Env) (d : ResourceData)
    (calls : List Call) : Outcome :=
  let calls1 := calls ++ [Call.DescribeNasSmbAcl d.Id]
  match env.DescribeNasSmbAcl calls d.Id with
  | .error err =>
    if env.NotFoundError err then ⟨Exit.returned none, d.SetId "", calls1⟩
    else ⟨Exit.returned (some (WrapError err)), d, calls1⟩
  | .ok object =>
    match ParseResourceId d.Id 3 with
    | .error err => ⟨Exit.returned (some (WrapError err)), d, calls1⟩
    | .ok parts =>
      match sliceIndex parts 0 with
      | .error p => ⟨Exit.panicked p, d, calls1⟩
      | .ok parts0 =>
        let d := d.Set "file_system_id" (Value.str parts0)
        match sliceIndex parts 1 with
        | .error p => ⟨Exit.panicked p, d, calls1⟩
        | .ok parts1 =>
          let d := d.Set "keytab" (Value.str parts1)
          match sliceIndex parts 2 with
          | .error p => ⟨Exit.panicked p, d, calls1⟩
          | .ok parts2 =>
            let d := d.Set "keytab_md5" (Value.str parts2)
            let d := d.Set "auth_method" (Value.str (fmt.Sprint [object.index "AuthMethod"]))
            let d := d.Set "enable_anonymous_access"
              (Value.str (fmt.Sprint [object.index "EnableAnonymousAccess"]))
            let d := d.Set "encrypt_data" (Value.str (fmt.Sprint [object.index "EncryptData"]))
            let d := d.Set "reject_unencrypted_access"
              (Value.str (fmt.Sprint [object.index "RejectUnencryptedAccess"]))
            let d := d.Set "super_admin_sid"
              (Value.str (fmt.Sprint [object.index "SuperAdminSid"]))
            let d := d.Set "home_dir_path" (Value.str (fmt.Sprint [object.index "HomeDirPath"]))
            let d := d.Set "enabled" (Value.str (fmt.Sprint [object.index "Enabled"]))
            ⟨Exit.returned none, d, calls1⟩

/-- The request map built by `resourceAlicloudNasSmbAclAttachmentCreate`. -/
def resourceAlicloudNasSmbAclAttachmentCreate.request (env : Env) (d : ResourceData) :
    GoMap :=
  let request := GoMap.empty
  let request := request.assign "RegionId" (Value.str env.Region)
  let request := request.assign "FileSystemId" (d.Get "file_system_id")
  let request := request.assign "Keytab" (d.Get "keytab")
  let request := request.assign "KeytabMd5" (d.Get "keytab_md5")
  request

/-- The handler `resourceAlicloudNasSmbAclAttachmentCreate`. -/
def resourceAlicloudNasSmbAclAttachmentCreate (env : Env) (d : ResourceData)
    (calls : List Call) : Outcome :=
  let action := "EnableSmbAcl"
  match env.NewNasClient with
  | some err => ⟨Exit.returned (some (WrapError err)), d, calls⟩
  | none =>
    let request := resourceAlicloudNasSmbAclAttachmentCreate.request env d
    match Retry (d.Timeout TimeoutKey.TimeoutCreate) (attempt env action request)
        ⟨GoMap.empty, calls⟩ with
    | (some err, s) =>
      ⟨Exit.returned (some (WrapErrorf err env.DefaultErrorMsg
        ["alicloud_nas_smb_acl_attachment", action, env.AlibabaCloudSdkGoERROR])), d, s.calls⟩
    | (none, s) =>
      let d := d.SetId (fmt.Sprint [request.index "FileSystemId", Value.str ":",
        request.index "Keytab", Value.str ":", request.index "KeytabMd5"])
      resourceAlicloudNasSmbAclAttachmentRead env d s.calls

/-- The request map and the `update` flag built by
`resourceAlicloudNasSmbAclAttachmentUpdate` from the parsed id; the error case
is a panic. -/
def resourceAlicloudNasSmbAclAttachmentUpdate.request (env : Env) (d : ResourceData)
    (parts : List String) : Except Panic (GoMap × Bool) := do
  let request := GoMap.empty
  let request := request.assign "RegionId" (Value.str env.RegionId)
  let request := request.assign "FileSystemId" (Value.str (← sliceIndex parts 0))
  let update := false
  let update := if d.HasChange "keytab" then true else update
  let request := request.assign "Keytab" (d.Get "keytab")
  let update := if d.HasChange "keytab_md5" then true else update
  let request := request.assign "KeytabMd5" (d.Get "keytab_md5")
  let update := if d.HasChange "enable_anonymous_access" then true else update
  let request := request.assign "EnableAnonymousAccess" (d.Get "enable_anonymous_access")
  let update := if d.HasChange "encrypt_data" then true else update
  let request := request.assign "EncryptData" (d.Get "encrypt_data")
  let update := if d.HasChange "reject_unencrypted_access" then true else update
  let request := request.assign "RejectUnencryptedAccess" (d.Get "reject_unencrypted_access")
  let update := if d.HasChange "super_admin_sid" then true else update
  let request := request.assign "SuperAdminSid" (d.Get "super_admin_sid")
  let update := if d.HasChange "home_dir_path" then true else update
  let request := request.assign "HomeDirPath" (d.Get "home_dir_path")
  return (request, update)

/-- The handler `resourceAlicloudNasSmbAclAttachmentUpdate`. -/
def resourceAlicloudNasSmbAclAttachmentUpdate (env : Env) (d : ResourceData)
    (calls : List Call) : Outcome :=
  match env.NewNasClient with
  | some err => ⟨Exit.returned (some (WrapError err)), d, calls⟩
  | none =>
    match ParseResourceId d.Id 3 with
    | .error err => ⟨Exit.returned (some (WrapError err)), d, calls⟩
    | .ok parts =>
      match resourceAlicloudNasSmbAclAttachmentUpdate.request env d parts with
      | .error p => ⟨Exit.panicked p, d, calls⟩
      | .ok (request, update) =>
        if update then
          let action := "ModifySmbAcl"
          match Retry (d.Timeout TimeoutKey.TimeoutUpdate) (attempt env action request)
              ⟨GoMap.empty, calls⟩ with
          | (some err, s) =>
            ⟨Exit.returned (some (WrapErrorf err env.DefaultErrorMsg
              [d.Id, action, env.AlibabaCloudSdkGoERROR])), d, s.calls⟩
          | (none, s) => resourceAlicloudNasSmbAclAttachmentRead env d s.calls
        else resourceAlicloudNasSmbAclAttachmentRead env d calls

/-- The request map built by `resourceAlicloudNasSmbAclAttachmentDelete` from
the parsed id; the error case is a panic. -/
def resourceAlicloudNasSmbAclAttachmentDelete.request (env : Env) (parts : List String) :
    Except Panic GoMap := do
  let request := GoMap.empty
  let request := request.assign "RegionId" (Value.str env.RegionId)
  let request := request.assign "FileSystemId" (Value.str (← sliceIndex parts 0))
  return request

/-- The handler `resourceAlicloudNasSmbAclAttachmentDelete`. -/
def resourceAlicloudNasSmbAclAttachmentDelete (env : Env) (d : ResourceData)
    (calls : List Call) : Outcome :=
  let action := "DisableSmbAcl"
  match env.NewNasClient with
  | some err => ⟨Exit.returned (some (WrapError err)), d, calls⟩
  | none =>
    match ParseResourceId d.Id 3 with
    | .error err => ⟨Exit.returned (some (WrapError err)), d, calls⟩
    | .ok parts =>
      match resourceAlicloudNasSmbAclAttachmentDelete.request env parts with
      | .error p => ⟨Exit.panicked p, d, calls⟩
      | .ok request =>
        match Retry (d.Timeout TimeoutKey.TimeoutDelete) (attempt env action request)
            ⟨GoMap.empty, calls⟩ with
        | (some err, s) =>
          if env.IsExpectedErrors err ["Forbidden.NasNotFound"] then
            ⟨Exit.returned none, d, s.calls⟩
          else
            ⟨Exit.returned (some (WrapErrorf err env.DefaultErrorMsg
              [d.Id, action, env.AlibabaCloudSdkGoERROR])), d, s.calls⟩
        | (none, s) => ⟨Exit.returned none, d, s.calls⟩

/-! ## Vocabulary of the statements -/

/-- Whether the attempt made after the call history `calls` fails with an
error for which `NeedRetry` holds. -/
def attemptRetryable (env : Env) (action : String) (request : GoMap) (calls : List Call) :
    Bool :=
  match env.DoRequest calls action request with
  | .error err => env.NeedRetry err
  | .ok _ => false

/-- The retried call fails `k` times with errors for which `NeedRetry` holds,
and then with the error `e`, for which it does not. -/
def FirstNonTransient (env : Env) (action : String) (request : GoMap) (calls : List Call)
    (k : Nat) (e : Error) : Prop :=
  (∀ i, i < k → attemptRetryable env action request
      (calls ++ List.replicate i (Call.DoRequest action request)) = true) ∧
  env.DoRequest (calls ++ List.replicate k (Call.DoRequest action request)) action request
    = .error e ∧
  env.NeedRetry e = false

/-! ## Sample inputs -/

/-- A remote side on which every call succeeds: `CreateAccessRule` answers
with the rule id "r-1", a describe call with an empty object. -/
def sampleEnv : Env where
  Region := "cn-hangzhou"
  RegionId := "cn-hangzhou"
  NewNasClient := none
  DoRequest := fun _ _ _ => .ok ⟨[("AccessRuleId", Value.str "r-1")]⟩
  DescribeNasAccessRule := fun _ _ => .ok GoMap.empty
  DescribeNasSmbAcl := fun _ _ => .ok GoMap.empty
  NeedRetry := fun e => e == Error.remote "Throttling"
  NotFoundError := fun e => e == Error.remote "InvalidAccessRule.NotFound"
  IsExpectedErrors := fun e codes =>
    match e with
    | Error.remote code => codes.contains code
    | _ => false
  formatInt := fun v =>
    match v with
    | Value.null => some 0
    | Value.int n => some n
    | _ => none
  DefaultErrorMsg := "Resource %s %s Failed!!! %s"
  AlibabaCloudSdkGoERROR := "[SDK alibaba-cloud-sdk-go ERROR]"

/-- An access rule as planned: group "grp", type "standard", one IPv4 range. -/
def sampleRule : ResourceData where
  id := ""
  old := GoMap.empty
  new := ⟨[("access_group_name", Value.str "grp"), ("source_cidr_ip", Value.str "10.0.0.0/8"),
    ("rw_access_type", Value.str "RDWR"), ("user_access_type", Value.str "no_squash"),
    ("priority", Value.int 1), ("file_system_type", Value.str "standard"),
    ("ipv6_source_cidr_ip", Value.str "")]⟩
  set := GoMap.empty
  retriesCreate := 2
  retriesUpdate := 2
  retriesDelete := 2

/-- A remote side on which the access rule has vanished, while the SMB ACL of
the file system is still described. -/
def ruleGoneEnv : Env :=
  { sampleEnv with
    DescribeNasAccessRule := fun _ _ => .error (Error.remote "InvalidAccessRule.NotFound")
    DescribeNasSmbAcl := fun _ _ =>
      .ok ⟨[("AuthMethod", Value.str "Kerberos"), ("Enabled", Value.bool true),
        ("HomeDirPath", Value.str "/home"), ("SuperAdminSid", Value.str "S-1-5-32-544")]⟩ }

/-- A remote side that describes the access rule and refuses to describe the
SMB ACL, with an error that is not a not-found error. -/
def aclDeniedEnv : Env :=
  { sampleEnv with
    DescribeNasAccessRule := fun _ _ =>
      .ok ⟨[("SourceCidrIp", Value.str "192.168.0.0/16"), ("Priority", Value.int 7),
        ("RWAccess", Value.str "RDONLY"), ("UserAccess", Value.str "root_squash"),
        ("Ipv6SourceCidrIp", Value.str "")]⟩
    DescribeNasSmbAcl := fun _ _ => .error (Error.remote "Forbidden.RAM") }

/-- A remote side on which the file system has vanished: every `DoRequest`
fails with "Forbidden.NasNotFound", which is not retried. -/
def nasGoneEnv : Env :=
  { sampleEnv with DoRequest := fun _ _ _ => .error (Error.remote "Forbidden.NasNotFound") }

/-- A remote side that throttles the first `DoRequest` of a run and rejects
the second with "InvalidParam". -/
def rejectingEnv : Env :=
  { sampleEnv with
    DoRequest := fun calls _ _ =>
      match calls with
      | [] => .error (Error.remote "Throttling")
      | _ => .error (Error.remote "InvalidParam") }

/-- An access rule in state with the id "grp:r-1:standard" and no planned
change. -/
def settledRule : ResourceData :=
  { sampleRule with id := "grp:r-1:standard", old := sampleRule.new }

/-- An SMB ACL attachment as planned: file system "fs-1", keytab "a2V5dGFi",
checksum "0cc175b9". -/
def sampleAttachment : ResourceData where
  id := ""
  old := GoMap.empty
  new := ⟨[("file_system_id", Value.str "fs-1"), ("keytab", Value.str "a2V5dGFi"),
    ("keytab_md5", Value.str "0cc175b9")]⟩
  set := GoMap.empty
  retriesCreate := 2
  retriesUpdate := 2
  retriesDelete := 2

/-- The SMB ACL attachment created from `sampleAttachment`, with a new keytab
"bmV3" and checksum "92eb5ffe" configured. -/
def rekeyedAttachment : ResourceData where
  id := "fs-1:a2V5dGFi:0cc175b9"
  old := ⟨[("file_system_id", Value.str "fs-1"), ("keytab", Value.str "a2V5dGFi"),
    ("keytab_md5", Value.str "0cc175b9")]⟩
  new := ⟨[("file_system_id", Value.str "fs-1"), ("keytab", Value.str "bmV3"),
    ("keytab_md5", Value.str "92eb5ffe")]⟩
  set := GoMap.empty
  retriesCreate := 2
  retriesUpdate := 2
  retriesDelete := 2

/-! ## Splitting and joining ids -/

theorem splitChars_length (sep : Char) (l : List Char) :
    (splitChars sep l).length = l.count sep + 1 := by
  induction l with
  | nil => simp [splitChars]
  | cons c cs ih =>
    by_cases h : c = sep
    · subst h
      simp [splitChars, ih]
    · have hne : (c == sep) = false := by simpa using h
      cases hs : splitChars sep cs with
      | nil => simp [hs] at ih
      | cons p ps =>
        rw [hs] at ih
        simp [splitChars, h, hs, List.count_cons, hne] at ih ⊢
        omega

theorem splitChars_of_not_mem (sep : Char) (l : List Char) (h : sep ∉ l) :
    splitChars sep l = [l] := by
  induction l with
  | nil => simp [splitChars]
  | cons c cs ih =>
    have hc : c ≠ sep := fun e => h (by simp [e])
    have hcs : sep ∉ cs := fun e => h (by simp [e])
    simp [splitChars, hc, ih hcs]

theorem splitChars_append_sep (sep : Char) (a b : List Char) (h : sep ∉ a) :
    splitChars sep (a ++ sep :: b) = a :: splitChars sep b := by
  induction a with
  | nil => simp [splitChars]
  | cons c cs ih =>
    have hc : c ≠ sep := fun e => h (by simp [e])
    have hcs : sep ∉ cs := fun e => h (by simp [e])
    simp [splitChars, hc, ih hcs]

theorem splitChars_not_mem (sep : Char) (l : List Char) :
    ∀ p ∈ splitChars sep l, sep ∉ p := by
  induction l with
  | nil => simp [splitChars]
  | cons c cs ih =>
    by_cases h : c = sep
    · subst h
      intro p hp
      simp only [splitChars, if_true, List.mem_cons] at hp
      rcases hp with rfl | hp
      · simp
      · exact ih p hp
    · cases hs : splitChars sep cs with
      | nil =>
        intro p hp
        simp [splitChars, h, hs] at hp
        subst hp
        simpa using Ne.symm h
      | cons q qs =>
        rw [hs] at ih
        intro p hp
        simp only [splitChars, h, if_false, hs, List.mem_cons] at hp
        rcases hp with rfl | hp
        · have := ih q (by simp)
          simp [this, Ne.symm h]
        · exact ih p (by simp [hp])

theorem Split_length (s : String) :
    (strings.Split s ':').length = s.data.count ':' + 1 := by
  simp [strings.Split, splitChars_length]

theorem Split_two (g r : String) (hg : ':' ∉ g.data) (hr : ':' ∉ r.data) :
    strings.Split (g ++ ":" ++ r) ':' = [g, r] := by
  have h1 : (g ++ ":" ++ r).data = g.data ++ ':' :: r.data := by
    simp [String.data_append]
  simp [strings.Split, h1, splitChars_append_sep _ _ _ hg, splitChars_of_not_mem _ _ hr]

theorem Split_three (g r t : String) (hg : ':' ∉ g.data) (hr : ':' ∉ r.data)
    (ht : ':' ∉ t.data) :
    strings.Split (g ++ ":" ++ r ++ ":" ++ t) ':' = [g, r, t] := by
  have h1 : (g ++ ":" ++ r ++ ":" ++ t).data = g.data ++ ':' :: (r.data ++ ':' :: t.data) := by
    simp [String.data_append]
  simp [strings.Split, h1, splitChars_append_sep _ _ _ hg, splitChars_append_sep _ _ _ hr,
    splitChars_of_not_mem _ _ ht]

theorem Split_not_mem (s p : String) (hp : p ∈ strings.Split s ':') : ':' ∉ p.data := by
  simp only [strings.Split, List.mem_map] at hp
  obtain ⟨q, hq, rfl⟩ := hp
  exact splitChars_not_mem _ _ q hq

theorem ParseResourceId_three (g r t : String) (hg : ':' ∉ g.data) (hr : ':' ∉ r.data)
    (ht : ':' ∉ t.data) :
    ParseResourceId (g ++ ":" ++ r ++ ":" ++ t) 3 = .ok [g, r, t] := by
  simp [ParseResourceId, Split_three g r t hg hr ht]

/-! ## Access rule Read, by the shape of the split id -/

theorem fromObject_id (env : Env) (d : ResourceData) (object : GoMap) (calls : List Call) :
    (resourceAlicloudNasAccessRuleRead.fromObject env d object calls).d.id = d.id := by
  unfold resourceAlicloudNasAccessRuleRead.fromObject
  cases env.formatInt (object.index "Priority") <;> rfl

theorem fromObject_exit (env : Env) (d : ResourceData) (object : GoMap) (calls : List Call) :
    ∀ i n, (resourceAlicloudNasAccessRuleRead.fromObject env d object calls).exit
      ≠ Exit.panicked (Panic.indexOutOfRange i n) := by
  intro i n
  unfold resourceAlicloudNasAccessRuleRead.fromObject
  cases env.formatInt (object.index "Priority") <;> simp

theorem find?_assign (m : GoMap) (k key : String) (v : Value) :
    (m.assign k v).find? key = if key = k then some v else m.find? key := by
  by_cases h : key = k
  · simp [GoMap.find?, GoMap.assign, List.lookup, h]
  · have hb : (key == k) = false := by simpa using h
    simp [GoMap.find?, GoMap.assign, List.lookup, h, hb]

theorem Get_Set (d : ResourceData) (k key : String) (v : Value) :
    (d.Set k v).Get key = if key = k then v else d.Get key := by
  by_cases h : key = k
  · simp [ResourceData.Get, ResourceData.Set, find?_assign, h]
  · simp [ResourceData.Get, ResourceData.Set, find?_assign, h]

theorem Get_SetId (d : ResourceData) (key v : String) : (d.SetId v).Get key = d.Get key := rfl

theorem fromObject_get (env : Env) (d : ResourceData) (object : GoMap) (calls : List Call)
    (key : String)
    (hkey : key ∉ ["source_cidr_ip", "priority", "rw_access_type", "user_access_type",
      "ipv6_source_cidr_ip"]) :
    (resourceAlicloudNasAccessRuleRead.fromObject env d object calls).d.Get key
      = d.Get key := by
  simp only [List.mem_cons, List.mem_singleton, List.not_mem_nil, or_false, not_or] at hkey
  obtain ⟨h1, h2, h3, h4, h5⟩ := hkey
  unfold resourceAlicloudNasAccessRuleRead.fromObject
  cases env.formatInt (object.index "Priority") <;>
    simp [Get_Set, h1, h2, h3, h4, h5]

theorem Read_one_part (env : Env) (d : ResourceData) (calls : List Call) (object : GoMap)
    (p0 : String) (hdesc : env.DescribeNasAccessRule calls d.Id = .ok object)
    (hparts : strings.Split d.Id ':' = [p0]) :
    resourceAlicloudNasAccessRuleRead env d calls
      = ⟨Exit.panicked (Panic.indexOutOfRange 1 1),
          d.Set "access_group_name" (Value.str p0),
          calls ++ [Call.DescribeNasAccessRule d.Id]⟩ := by
  simp [resourceAlicloudNasAccessRuleRead, hdesc, hparts, sliceIndex]

theorem Read_two_parts (env : Env) (d : ResourceData) (calls : List Call) (object : GoMap)
    (p0 p1 : String) (hdesc : env.DescribeNasAccessRule calls d.Id = .ok object)
    (hparts : strings.Split d.Id ':' = [p0, p1]) :
    resourceAlicloudNasAccessRuleRead env d calls
      = resourceAlicloudNasAccessRuleRead.fromObject env
          (((((d.Set "access_group_name" (Value.str p0)).Set "access_rule_id"
            (Value.str p1)).SetId (p0 ++ ":" ++ p1 ++ ":" ++ "standard")).Set
            "file_system_type" (Value.str "standard")))
          object (calls ++ [Call.DescribeNasAccessRule d.Id]) := by
  simp [resourceAlicloudNasAccessRuleRead, hdesc, hparts, sliceIndex]

theorem Read_more_parts (env : Env) (d : ResourceData) (calls : List Call) (object : GoMap)
    (p0 p1 p2 : String) (rest : List String)
    (hdesc : env.DescribeNasAccessRule calls d.Id = .ok object)
    (hparts : strings.Split d.Id ':' = p0 :: p1 :: p2 :: rest) :
    resourceAlicloudNasAccessRuleRead env d calls
      = resourceAlicloudNasAccessRuleRead.fromObject env
          (((d.Set "access_group_name" (Value.str p0)).Set "access_rule_id"
            (Value.str p1)).Set "file_system_type" (Value.str p2))
          object (calls ++ [Call.DescribeNasAccessRule d.Id]) := by
  simp [resourceAlicloudNasAccessRuleRead, hdesc, hparts, sliceIndex]

theorem fromObject_returned (env : Env) (d : ResourceData) (object : GoMap)
    (calls : List Call) (n : Int) (hfmt : env.formatInt (object.index "Priority") = some n) :
    (resourceAlicloudNasAccessRuleRead.fromObject env d object calls).exit
      = Exit.returned none := by
  simp [resourceAlicloudNasAccessRuleRead.fromObject, hfmt]

/-! ## Access rule Read: index safety and legacy ids -/

/-- C10: after a successful describe call, the access rule Read handler
raises an index-out-of-range panic exactly when the id has no ':' (the index
is then 1 on a split of length 1); with at least two ':'-separated parts the
panic does not occur. -/
theorem accessRuleRead_index_safety (env : Env) (d : ResourceData) (calls : List Call)
    (object : GoMap) (hdesc : env.DescribeNasAccessRule calls d.Id = .ok object) :
    ((∀ i n, (resourceAlicloudNasAccessRuleRead env d calls).exit
        ≠ Exit.panicked (Panic.indexOutOfRange i n)) ↔ ':' ∈ d.Id.data) ∧
    (':' ∉ d.Id.data →
      (resourceAlicloudNasAccessRuleRead env d calls).exit
        = Exit.panicked (Panic.indexOutOfRange 1 1)) ∧
    (2 ≤ (strings.Split d.Id ':').length →
      ∀ i n, (resourceAlicloudNasAccessRuleRead env d calls).exit
        ≠ Exit.panicked (Panic.indexOutOfRange i n)) := by
  have hlen := Split_length d.Id
  cases hparts : strings.Split d.Id ':' with
  | nil => simp [hparts] at hlen
  | cons p0 rest =>
    cases rest with
    | nil =>
      have hcount : List.count ':' d.Id.data = 0 := by simpa [hparts] using hlen.symm
      have hmem : ':' ∉ d.Id.data := List.count_eq_zero.mp hcount
      have hread := Read_one_part env d calls object p0 hdesc hparts
      refine ⟨?_, ?_, ?_⟩
      · constructor
        · intro h
          exact absurd (by rw [hread]) (h 1 1)
        · intro h
          exact absurd h hmem
      · intro _
        rw [hread]
      · intro h
        simp at h
    | cons p1 rest =>
      have hcount : 0 < List.count ':' d.Id.data := by
        have : List.count ':' d.Id.data + 1 = rest.length + 2 := by
          simpa [hparts] using hlen.symm
        omega
      have hmem : ':' ∈ d.Id.data := List.count_pos_iff.mp hcount
      have hsafe : ∀ i n, (resourceAlicloudNasAccessRuleRead env d calls).exit
          ≠ Exit.panicked (Panic.indexOutOfRange i n) := by
        cases rest with
        | nil =>
          rw [Read_two_parts env d calls object p0 p1 hdesc hparts]
          exact fromObject_exit _ _ _ _
        | cons p2 rest =>
          rw [Read_more_parts env d calls object p0 p1 p2 rest hdesc hparts]
          exact fromObject_exit _ _ _ _
      exact ⟨⟨fun _ => hmem, fun _ => hsafe⟩, fun h => absurd hmem h, fun _ => hsafe⟩

/-- Witness of C10: with the id "grp" and a successful describe call, the
access rule Read handler panics on `parts[1]`. -/
theorem accessRuleRead_index_safety_witness :
    (resourceAlicloudNasAccessRuleRead sampleEnv { sampleRule with id := "grp" } []).exit
      = Exit.panicked (Panic.indexOutOfRange 1 1) :=
  (accessRuleRead_index_safety sampleEnv { sampleRule with id := "grp" } [] GoMap.empty
    rfl).2.1 (by decide)

theorem standard_suffix (x : String) : x ++ ":" ++ "standard" = x ++ ":standard" := by
  rw [String.append_assoc]
  rfl

/-- C8: let the describe call of the access rule Read handler succeed (and
`formatInt` accept the described priority).  On an id `g:r` with `g` and `r`
free of ':', Read returns nil, rewrites the id to `g:r:standard` and sets
file_system_type = "standard", access_group_name = g, access_rule_id = r.  On
an id that splits into exactly three parts `[g, r, t]`, Read returns nil,
leaves the id as it is and sets file_system_type = t.  And whenever this Read
returned nil, a second Read whose describe call succeeds returns nil and
leaves the id as the first Read left it. -/
theorem accessRuleRead_legacy_id (env : Env) (d : ResourceData) (calls : List Call)
    (object : GoMap) (n : Int)
    (hdesc : env.DescribeNasAccessRule calls d.Id = .ok object)
    (hfmt : env.formatInt (object.index "Priority") = some n) :
    (∀ g r : String, ':' ∉ g.data → ':' ∉ r.data → d.Id = g ++ ":" ++ r →
      (resourceAlicloudNasAccessRuleRead env d calls).exit = Exit.returned none ∧
      (resourceAlicloudNasAccessRuleRead env d calls).d.Id = g ++ ":" ++ r ++ ":standard" ∧
      (resourceAlicloudNasAccessRuleRead env d calls).d.Get "file_system_type"
        = Value.str "standard" ∧
      (resourceAlicloudNasAccessRuleRead env d calls).d.Get "access_group_name"
        = Value.str g ∧
      (resourceAlicloudNasAccessRuleRead env d calls).d.Get "access_rule_id"
        = Value.str r) ∧
    (∀ g r t : String, strings.Split d.Id ':' = [g, r, t] →
      (resourceAlicloudNasAccessRuleRead env d calls).exit = Exit.returned none ∧
      (resourceAlicloudNasAccessRuleRead env d calls).d.Id = d.Id ∧
      (resourceAlicloudNasAccessRuleRead env d calls).d.Get "file_system_type"
        = Value.str t) ∧
    ((resourceAlicloudNasAccessRuleRead env d calls).exit = Exit.returned none →
      ∀ (calls2 : List Call) (object2 : GoMap) (n2 : Int),
        env.DescribeNasAccessRule calls2 (resourceAlicloudNasAccessRuleRead env d calls).d.Id
          = .ok object2 →
        env.formatInt (object2.index "Priority") = some n2 →
        (resourceAlicloudNasAccessRuleRead env
          (resourceAlicloudNasAccessRuleRead env d calls).d calls2).exit
          = Exit.returned none ∧
        (resourceAlicloudNasAccessRuleRead env
          (resourceAlicloudNasAccessRuleRead env d calls).d calls2).d.Id
          = (resourceAlicloudNasAccessRuleRead env d calls).d.Id) := by
  refine ⟨?_, ?_, ?_⟩
  · intro g r hg hr hid
    have hparts : strings.Split d.Id ':' = [g, r] := by
      rw [hid]
      exact Split_two g r hg hr
    rw [Read_two_parts env d calls object g r hdesc hparts]
    refine ⟨fromObject_returned _ _ _ _ n hfmt, ?_, ?_, ?_, ?_⟩
    · show (resourceAlicloudNasAccessRuleRead.fromObject _ _ _ _).d.id = _
      rw [fromObject_id, ← standard_suffix]
      rfl
    · rw [fromObject_get _ _ _ _ _ (by decide)]
      simp [Get_Set]
    · rw [fromObject_get _ _ _ _ _ (by decide)]
      simp [Get_Set, Get_SetId]
    · rw [fromObject_get _ _ _ _ _ (by decide)]
      simp [Get_Set, Get_SetId]
  · intro g r t hparts
    rw [Read_more_parts env d calls object g r t [] hdesc hparts]
    refine ⟨fromObject_returned _ _ _ _ n hfmt, ?_, ?_⟩
    · show (resourceAlicloudNasAccessRuleRead.fromObject _ _ _ _).d.id = _
      rw [fromObject_id]
      rfl
    · rw [fromObject_get _ _ _ _ _ (by decide)]
      simp [Get_Set]
  · intro hexit calls2 object2 n2 hdesc2 hfmt2
    cases hparts : strings.Split d.Id ':' with
    | nil =>
      have hlen := Split_length d.Id
      simp [hparts] at hlen
    | cons p0 rest =>
      cases rest with
      | nil =>
        rw [Read_one_part env d calls object p0 hdesc hparts] at hexit
        simp at hexit
      | cons p1 rest =>
        have hp0 : ':' ∉ p0.data := Split_not_mem d.Id p0 (by simp [hparts])
        have hp1 : ':' ∉ p1.data := Split_not_mem d.Id p1 (by simp [hparts])
        cases rest with
        | nil =>
          have hread := Read_two_parts env d calls object p0 p1 hdesc hparts
          have hid : (resourceAlicloudNasAccessRuleRead env d calls).d.Id
              = p0 ++ ":" ++ p1 ++ ":" ++ "standard" := by
            show (resourceAlicloudNasAccessRuleRead env d calls).d.id = _
            rw [hread, fromObject_id]
            rfl
          have hparts2 : strings.Split (resourceAlicloudNasAccessRuleRead env d calls).d.Id ':'
              = [p0, p1, "standard"] := by
            rw [hid]
            exact Split_three p0 p1 "standard" hp0 hp1 (by decide)
          rw [Read_more_parts env _ calls2 object2 p0 p1 "standard" [] hdesc2 hparts2]
          refine ⟨fromObject_returned _ _ _ _ n2 hfmt2, ?_⟩
          show (resourceAlicloudNasAccessRuleRead.fromObject _ _ _ _).d.id = _
          rw [fromObject_id]
          rfl
        | cons p2 rest =>
          have hread := Read_more_parts env d calls object p0 p1 p2 rest hdesc hparts
          have hid : (resourceAlicloudNasAccessRuleRead env d calls).d.Id = d.Id := by
            show (resourceAlicloudNasAccessRuleRead env d calls).d.id = _
            rw [hread, fromObject_id]
            rfl
          have hparts2 : strings.Split (resourceAlicloudNasAccessRuleRead env d calls).d.Id ':'
              = p0 :: p1 :: p2 :: rest := by
            rw [hid]
            exact hparts
          rw [Read_more_parts env _ calls2 object2 p0 p1 p2 rest hdesc2 hparts2]
          refine ⟨fromObject_returned _ _ _ _ n2 hfmt2, ?_⟩
          show (resourceAlicloudNasAccessRuleRead.fromObject _ _ _ _).d.id = _
          rw [fromObject_id]
          rfl

/-- Witness of C8: Read on the legacy id "grp:r-1" returns nil and rewrites
the id to "grp:r-1:standard". -/
theorem accessRuleRead_legacy_id_witness :
    (resourceAlicloudNasAccessRuleRead sampleEnv { sampleRule with id := "grp:r-1" } []).exit
      = Exit.returned none ∧
    (resourceAlicloudNasAccessRuleRead sampleEnv { sampleRule with id := "grp:r-1" } []).d.Id
      = "grp" ++ ":" ++ "r-1" ++ ":standard" ∧
    (resourceAlicloudNasAccessRuleRead sampleEnv
      { sampleRule with id := "grp:r-1" } []).d.Get "file_system_type"
      = Value.str "standard" ∧
    (resourceAlicloudNasAccessRuleRead sampleEnv
      { sampleRule with id := "grp:r-1" } []).d.Get "access_group_name"
      = Value.str "grp" ∧
    (resourceAlicloudNasAccessRuleRead sampleEnv
      { sampleRule with id := "grp:r-1" } []).d.Get "access_rule_id"
      = Value.str "r-1" :=
  (accessRuleRead_legacy_id sampleEnv { sampleRule with id := "grp:r-1" } [] GoMap.empty 0
    rfl rfl).1 "grp" "r-1" (by decide) (by decide) (by decide)

/-! ## The retried call -/

theorem attempt_ok (env : Env) (action : String) (request response : GoMap) (s : Attempted)
    (h : env.DoRequest s.calls action request = .ok response) :
    attempt env action request s
      = (none, ⟨response, s.calls ++ [Call.DoRequest action request]⟩) := by
  simp [attempt, h]

theorem attempt_retryable (env : Env) (action : String) (request : GoMap) (s : Attempted)
    (e : Error) (h : env.DoRequest s.calls action request = .error e)
    (hr : env.NeedRetry e = true) :
    attempt env action request s
      = (some (RetryableError e), ⟨GoMap.empty, s.calls ++ [Call.DoRequest action request]⟩) := by
  simp [attempt, h, hr]

theorem attempt_nonretryable (env : Env) (action : String) (request : GoMap) (s : Attempted)
    (e : Error) (h : env.DoRequest s.calls action request = .error e)
    (hr : env.NeedRetry e = false) :
    attempt env action request s
      = (some (NonRetryableError e),
          ⟨GoMap.empty, s.calls ++ [Call.DoRequest action request]⟩) := by
  simp [attempt, h, hr]

theorem Retry_nonretryable (env : Env) (action : String) (request : GoMap) (s : Attempted)
    (e : Error) (n : Nat) (h : env.DoRequest s.calls action request = .error e)
    (hr : env.NeedRetry e = false) :
    Retry n (attempt env action request) s
      = (some e, ⟨GoMap.empty, s.calls ++ [Call.DoRequest action request]⟩) := by
  cases n <;> simp [Retry, attempt_nonretryable env action request s e h hr, NonRetryableError]

theorem Retry_retryable (env : Env) (action : String) (request : GoMap) (s : Attempted)
    (e : Error) (n : Nat) (h : env.DoRequest s.calls action request = .error e)
    (hr : env.NeedRetry e = true) :
    Retry (n + 1) (attempt env action request) s
      = Retry n (attempt env action request)
          ⟨GoMap.empty, s.calls ++ [Call.DoRequest action request]⟩ := by
  simp [Retry, attempt_retryable env action request s e h hr, RetryableError]

theorem Retry_first_non_transient (env : Env) (action : String) (request : GoMap) (e : Error) :
    ∀ (k n : Nat) (calls : List Call), k ≤ n →
      FirstNonTransient env action request calls k e →
      Retry n (attempt env action request) ⟨GoMap.empty, calls⟩
        = (some e, ⟨GoMap.empty,
            calls ++ List.replicate (k + 1) (Call.DoRequest action request)⟩) := by
  intro k
  induction k with
  | zero =>
    intro n calls _ h
    obtain ⟨_, hfail, hne⟩ := h
    simp only [List.replicate, List.append_nil] at hfail
    simpa using Retry_nonretryable env action request ⟨GoMap.empty, calls⟩ e n hfail hne
  | succ k ih =>
    intro n calls hk h
    obtain ⟨hretry, hfail, hne⟩ := h
    obtain ⟨m, rfl⟩ : ∃ m, n = m + 1 := ⟨n - 1, by omega⟩
    have h0 := hretry 0 (by omega)
    simp only [List.replicate, List.append_nil, attemptRetryable] at h0
    cases hreq : env.DoRequest calls action request with
    | ok response => simp [hreq] at h0
    | error e0 =>
      rw [hreq] at h0
      rw [Retry_retryable env action request ⟨GoMap.empty, calls⟩ e0 m hreq h0]
      have hshift : ∀ i, (calls ++ [Call.DoRequest action request])
          ++ List.replicate i (Call.DoRequest action request)
          = calls ++ List.replicate (i + 1) (Call.DoRequest action request) := by
        intro i
        simp [List.replicate_succ]
      have := ih m (calls ++ [Call.DoRequest action request]) (by omega)
        ⟨fun i hi => by rw [hshift]; exact hretry (i + 1) (by omega),
         by rw [hshift]; exact hfail, hne⟩
      rw [this, hshift]

theorem Retry_calls (env : Env) (action : String) (request : GoMap) :
    ∀ (n : Nat) (s : Attempted), ∃ m,
      (Retry n (attempt env action request) s).2.calls
        = s.calls ++ List.replicate (m + 1) (Call.DoRequest action request) := by
  intro n
  induction n with
  | zero =>
    intro s
    refine ⟨0, ?_⟩
    cases h : env.DoRequest s.calls action request with
    | ok response => simp [Retry, attempt, h]
    | error e => cases hr : env.NeedRetry e <;> simp [Retry, attempt, h, hr]
  | succ n ih =>
    intro s
    cases h : env.DoRequest s.calls action request with
    | ok response => exact ⟨0, by simp [Retry, attempt, h]⟩
    | error e =>
      cases hr : env.NeedRetry e with
      | false => exact ⟨0, by simp [Retry, attempt, h, hr, NonRetryableError]⟩
      | true =>
        obtain ⟨m, hm⟩ := ih ⟨GoMap.empty, s.calls ++ [Call.DoRequest action request]⟩
        refine ⟨m + 1, ?_⟩
        rw [Retry_retryable env action request s e n h hr, hm]
        simp [List.replicate_succ]

/-! ## Parsing ids -/

theorem ParseResourceId_of_length_ne (id : String) (h : (strings.Split id ':').length ≠ 3) :
    ParseResourceId id 3
      = .error (WrapError (Error.invalidResourceId id 3 (strings.Split id ':').length)) := by
  simp [ParseResourceId, h]

theorem ParseResourceId_of_length_eq (id : String) (h : (strings.Split id ':').length = 3) :
    ParseResourceId id 3 = .ok (strings.Split id ':') := by
  simp [ParseResourceId, h]

theorem three_parts (parts : List String) (h : parts.length = 3) :
    ∃ p0 p1 p2, parts = [p0, p1, p2] := by
  match parts, h with
  | [p0, p1, p2], _ => exact ⟨p0, p1, p2, rfl⟩

theorem accessRuleDelete_request_three (env : Env) (p0 p1 p2 : String) :
    resourceAlicloudNasAccessRuleDelete.request env [p0, p1, p2]
      = .ok ((((GoMap.empty.assign "RegionId" (Value.str env.RegionId)).assign
          "AccessGroupName" (Value.str p0)).assign "AccessRuleId" (Value.str p1)).assign
          "FileSystemType" (Value.str p2)) := rfl

theorem smbDelete_request_three (env : Env) (p0 p1 p2 : String) :
    resourceAlicloudNasSmbAclAttachmentDelete.request env [p0, p1, p2]
      = .ok ((GoMap.empty.assign "RegionId" (Value.str env.RegionId)).assign
          "FileSystemId" (Value.str p0)) := rfl

/-! ## Delete -/

theorem accessRuleDelete_spec (env : Env) (d : ResourceData) (calls : List Call)
    (hclient : env.NewNasClient = none) :
    ((∃ err, (resourceAlicloudNasAccessRuleDelete env d calls).exit
        = Exit.returned (some err)) ↔
      ((strings.Split d.Id ':').length ≠ 3 ∨
        ∃ parts request e s, ParseResourceId d.Id 3 = .ok parts ∧
          resourceAlicloudNasAccessRuleDelete.request env parts = .ok request ∧
          Retry (d.Timeout TimeoutKey.TimeoutDelete)
            (attempt env "DeleteAccessRule" request) ⟨GoMap.empty, calls⟩ = (some e, s) ∧
          env.IsExpectedErrors e ["Forbidden.NasNotFound"] = false)) ∧
    ((strings.Split d.Id ':').length ≠ 3 →
      (resourceAlicloudNasAccessRuleDelete env d calls).calls = calls) ∧
    (∀ parts request e s, ParseResourceId d.Id 3 = .ok parts →
      resourceAlicloudNasAccessRuleDelete.request env parts = .ok request →
      Retry (d.Timeout TimeoutKey.TimeoutDelete)
        (attempt env "DeleteAccessRule" request) ⟨GoMap.empty, calls⟩ = (some e, s) →
      env.IsExpectedErrors e ["Forbidden.NasNotFound"] = true →
      (resourceAlicloudNasAccessRuleDelete env d calls).exit = Exit.returned none) := by
  by_cases hlen : (strings.Split d.Id ':').length = 3
  · obtain ⟨p0, p1, p2, hparts⟩ := three_parts _ hlen
    have hparse : ParseResourceId d.Id 3 = .ok [p0, p1, p2] := by
      rw [ParseResourceId_of_length_eq d.Id hlen, hparts]
    have hreq := accessRuleDelete_request_three env p0 p1 p2
    refine ⟨⟨?_, ?_⟩, fun h => absurd hlen h, ?_⟩
    · rintro ⟨err, herr⟩
      right
      cases hR : Retry (d.Timeout TimeoutKey.TimeoutDelete) (attempt env "DeleteAccessRule"
          ((((GoMap.empty.assign "RegionId" (Value.str env.RegionId)).assign
          "AccessGroupName" (Value.str p0)).assign "AccessRuleId" (Value.str p1)).assign
          "FileSystemType" (Value.str p2))) ⟨GoMap.empty, calls⟩ with
      | mk r s =>
        cases r with
        | none =>
          simp [resourceAlicloudNasAccessRuleDelete, hclient, hparse, hreq, hR] at herr
        | some e =>
          cases hx : env.IsExpectedErrors e ["Forbidden.NasNotFound"] with
          | true =>
            simp [resourceAlicloudNasAccessRuleDelete, hclient, hparse, hreq, hR, hx] at herr
          | false => exact ⟨_, _, e, s, hparse, hreq, hR, hx⟩
    · rintro (h | ⟨parts, request, e, s, hp, hq, hR, hx⟩)
      · exact absurd hlen h
      · rw [hparse] at hp
        cases hp
        rw [hreq] at hq
        cases hq
        exact ⟨WrapErrorf e env.DefaultErrorMsg
          [d.Id, "DeleteAccessRule", env.AlibabaCloudSdkGoERROR], by
          simp [resourceAlicloudNasAccessRuleDelete, hclient, hparse, hreq, hR, hx]⟩
    · intro parts request e s hp hq hR hx
      rw [hparse] at hp
      cases hp
      rw [hreq] at hq
      cases hq
      simp [resourceAlicloudNasAccessRuleDelete, hclient, hparse, hreq, hR, hx]
  · have hparse := ParseResourceId_of_length_ne d.Id hlen
    refine ⟨⟨fun _ => Or.inl hlen, fun _ =>
      ⟨WrapError (WrapError (Error.invalidResourceId d.Id 3 (strings.Split d.Id ':').length)), by
      simp [resourceAlicloudNasAccessRuleDelete, hclient, hparse]⟩⟩, fun _ => by
      simp [resourceAlicloudNasAccessRuleDelete, hclient, hparse], ?_⟩
    intro parts request e s hp
    rw [hparse] at hp
    cases hp

theorem smbDelete_spec (env : Env) (d : ResourceData) (calls : List Call)
    (hclient : env.NewNasClient = none) :
    ((∃ err, (resourceAlicloudNasSmbAclAttachmentDelete env d calls).exit
        = Exit.returned (some err)) ↔
      ((strings.Split d.Id ':').length ≠ 3 ∨
        ∃ parts request e s, ParseResourceId d.Id 3 = .ok parts ∧
          resourceAlicloudNasSmbAclAttachmentDelete.request env parts = .ok request ∧
          Retry (d.Timeout TimeoutKey.TimeoutDelete)
            (attempt env "DisableSmbAcl" request) ⟨GoMap.empty, calls⟩ = (some e, s) ∧
          env.IsExpectedErrors e ["Forbidden.NasNotFound"] = false)) ∧
    ((strings.Split d.Id ':').length ≠ 3 →
      (resourceAlicloudNasSmbAclAttachmentDelete env d calls).calls = calls) ∧
    (∀ parts request e s, ParseResourceId d.Id 3 = .ok parts →
      resourceAlicloudNasSmbAclAttachmentDelete.request env parts = .ok request →
      Retry (d.Timeout TimeoutKey.TimeoutDelete)
        (attempt env "DisableSmbAcl" request) ⟨GoMap.empty, calls⟩ = (some e, s) →
      env.IsExpectedErrors e ["Forbidden.NasNotFound"] = true →
      (resourceAlicloudNasSmbAclAttachmentDelete env d calls).exit = Exit.returned none) := by
  by_cases hlen : (strings.Split d.Id ':').length = 3
  · obtain ⟨p0, p1, p2, hparts⟩ := three_parts _ hlen
    have hparse : ParseResourceId d.Id 3 = .ok [p0, p1, p2] := by
      rw [ParseResourceId_of_length_eq d.Id hlen, hparts]
    have hreq := smbDelete_request_three env p0 p1 p2
    refine ⟨⟨?_, ?_⟩, fun h => absurd hlen h, ?_⟩
    · rintro ⟨err, herr⟩
      right
      cases hR : Retry (d.Timeout TimeoutKey.TimeoutDelete) (attempt env "DisableSmbAcl"
          ((GoMap.empty.assign "RegionId" (Value.str env.RegionId)).assign
          "FileSystemId" (Value.str p0))) ⟨GoMap.empty, calls⟩ with
      | mk r s =>
        cases r with
        | none =>
          simp [resourceAlicloudNasSmbAclAttachmentDelete, hclient, hparse, hreq, hR] at herr
        | some e =>
          cases hx : env.IsExpectedErrors e ["Forbidden.NasNotFound"] with
          | true =>
            simp [resourceAlicloudNasSmbAclAttachmentDelete, hclient, hparse, hreq, hR, hx]
              at herr
          | false => exact ⟨_, _, e, s, hparse, hreq, hR, hx⟩
    · rintro (h | ⟨parts, request, e, s, hp, hq, hR, hx⟩)
      · exact absurd hlen h
      · rw [hparse] at hp
        cases hp
        rw [hreq] at hq
        cases hq
        exact ⟨WrapErrorf e env.DefaultErrorMsg
          [d.Id, "DisableSmbAcl", env.AlibabaCloudSdkGoERROR], by
          simp [resourceAlicloudNasSmbAclAttachmentDelete, hclient, hparse, hreq, hR, hx]⟩
    · intro parts request e s hp hq hR hx
      rw [hparse] at hp
      cases hp
      rw [hreq] at hq
      cases hq
      simp [resourceAlicloudNasSmbAclAttachmentDelete, hclient, hparse, hreq, hR, hx]
  · have hparse := ParseResourceId_of_length_ne d.Id hlen
    refine ⟨⟨fun _ => Or.inl hlen, fun _ =>
      ⟨WrapError (WrapError (Error.invalidResourceId d.Id 3 (strings.Split d.Id ':').length)), by
      simp [resourceAlicloudNasSmbAclAttachmentDelete, hclient, hparse]⟩⟩, fun _ => by
      simp [resourceAlicloudNasSmbAclAttachmentDelete, hclient, hparse], ?_⟩
    intro parts request e s hp
    rw [hparse] at hp
    cases hp

/-! ## Retry only on transient errors -/

theorem attempt_trichotomy (env : Env) (action : String) (request : GoMap) (s : Attempted) :
    ((attempt env action request s).1 = none ↔
      ∃ response, env.DoRequest s.calls action request = .ok response) ∧
    (∀ e, (attempt env action request s).1 = some (RetryableError e) ↔
      (env.DoRequest s.calls action request = .error e ∧ env.NeedRetry e = true)) ∧
    (∀ e, (attempt env action request s).1 = some (NonRetryableError e) ↔
      (env.DoRequest s.calls action request = .error e ∧ env.NeedRetry e = false)) := by
  cases h : env.DoRequest s.calls action request with
  | ok response => simp [attempt, h]
  | error e0 =>
    cases hr : env.NeedRetry e0 with
    | true =>
      refine ⟨by simp [attempt, h, hr], fun e => ?_, fun e => ?_⟩
      · constructor
        · intro he
          simp [attempt, h, hr, RetryableError] at he
          subst he
          exact ⟨rfl, hr⟩
        · rintro ⟨he, _⟩
          cases he
          simp [attempt, h, hr]
      · constructor
        · intro he
          simp [attempt, h, hr, RetryableError, NonRetryableError] at he
        · rintro ⟨he, hn⟩
          cases he
          rw [hr] at hn
          cases hn
    | false =>
      refine ⟨by simp [attempt, h, hr], fun e => ?_, fun e => ?_⟩
      · constructor
        · intro he
          simp [attempt, h, hr, RetryableError, NonRetryableError] at he
        · rintro ⟨he, hn⟩
          cases he
          rw [hr] at hn
          cases hn
      · constructor
        · intro he
          simp [attempt, h, hr, NonRetryableError] at he
          subst he
          exact ⟨rfl, hr⟩
        · rintro ⟨he, _⟩
          cases he
          simp [attempt, h, hr]

/-- C5, amended: one attempt of the retried function literal yields nil
exactly when `DoRequest` returns no error, a retryable error exactly when it
returns an error with `NeedRetry`, and a non-retryable error exactly when it
returns an error without `NeedRetry`.  Hence, when the call fails `k` times
with transient errors and then with an error `e` that is not transient (and
`k` retries fit into the timeout), the loop ends after `k + 1` attempts with
`e`; Create and Update of both resources return `e` wrapped by `WrapErrorf`,
and Delete of both resources returns `e` wrapped by `WrapErrorf` unless `e`
is among the expected errors ["Forbidden.NasNotFound"], when it returns nil. -/
theorem retry_only_on_transient (env : Env) (d : ResourceData) (calls : List Call) (k : Nat)
    (e : Error) (hclient : env.NewNasClient = none) :
    (∀ action request s,
      ((attempt env action request s).1 = none ↔
        ∃ response, env.DoRequest s.calls action request = .ok response) ∧
      (∀ e1, (attempt env action request s).1 = some (RetryableError e1) ↔
        (env.DoRequest s.calls action request = .error e1 ∧ env.NeedRetry e1 = true)) ∧
      (∀ e1, (attempt env action request s).1 = some (NonRetryableError e1) ↔
        (env.DoRequest s.calls action request = .error e1 ∧ env.NeedRetry e1 = false))) ∧
    (∀ action request n, k ≤ n → FirstNonTransient env action request calls k e →
      Retry n (attempt env action request) ⟨GoMap.empty, calls⟩
        = (some e, ⟨GoMap.empty,
            calls ++ List.replicate (k + 1) (Call.DoRequest action request)⟩)) ∧
    (∀ request, resourceAlicloudNasAccessRuleCreate.request env d = .ok request →
      k ≤ d.Timeout TimeoutKey.TimeoutCreate →
      FirstNonTransient env "CreateAccessRule" request calls k e →
      resourceAlicloudNasAccessRuleCreate env d calls
        = ⟨Exit.returned (some (WrapErrorf e env.DefaultErrorMsg
            ["alicloud_nas_access_rule", "CreateAccessRule", env.AlibabaCloudSdkGoERROR])), d,
           calls ++ List.replicate (k + 1) (Call.DoRequest "CreateAccessRule" request)⟩) ∧
    (∀ parts request, ParseResourceId d.Id 3 = .ok parts →
      resourceAlicloudNasAccessRuleUpdate.request env d parts = .ok (request, true) →
      k ≤ d.Timeout TimeoutKey.TimeoutUpdate →
      FirstNonTransient env "ModifyAccessRule" request calls k e →
      resourceAlicloudNasAccessRuleUpdate env d calls
        = ⟨Exit.returned (some (WrapErrorf e env.DefaultErrorMsg
            [d.Id, "ModifyAccessRule", env.AlibabaCloudSdkGoERROR])), d,
           calls ++ List.replicate (k + 1) (Call.DoRequest "ModifyAccessRule" request)⟩) ∧
    (∀ parts request, ParseResourceId d.Id 3 = .ok parts →
      resourceAlicloudNasAccessRuleDelete.request env parts = .ok request →
      k ≤ d.Timeout TimeoutKey.TimeoutDelete →
      FirstNonTransient env "DeleteAccessRule" request calls k e →
      resourceAlicloudNasAccessRuleDelete env d calls
        = ⟨Exit.returned (if env.IsExpectedErrors e ["Forbidden.NasNotFound"] then none
            else some (WrapErrorf e env.DefaultErrorMsg
              [d.Id, "DeleteAccessRule", env.AlibabaCloudSdkGoERROR])), d,
           calls ++ List.replicate (k + 1) (Call.DoRequest "DeleteAccessRule" request)⟩) ∧
    (k ≤ d.Timeout TimeoutKey.TimeoutCreate →
      FirstNonTransient env "EnableSmbAcl"
        (resourceAlicloudNasSmbAclAttachmentCreate.request env d) calls k e →
      resourceAlicloudNasSmbAclAttachmentCreate env d calls
        = ⟨Exit.returned (some (WrapErrorf e env.DefaultErrorMsg
            ["alicloud_nas_smb_acl_attachment", "EnableSmbAcl", env.AlibabaCloudSdkGoERROR])), d,
           calls ++ List.replicate (k + 1) (Call.DoRequest "EnableSmbAcl"
             (resourceAlicloudNasSmbAclAttachmentCreate.request env d))⟩) ∧
    (∀ parts request, ParseResourceId d.Id 3 = .ok parts →
      resourceAlicloudNasSmbAclAttachmentUpdate.request env d parts = .ok (request, true) →
      k ≤ d.Timeout TimeoutKey.TimeoutUpdate →
      FirstNonTransient env "ModifySmbAcl" request calls k e →
      resourceAlicloudNasSmbAclAttachmentUpdate env d calls
        = ⟨Exit.returned (some (WrapErrorf e env.DefaultErrorMsg
            [d.Id, "ModifySmbAcl", env.AlibabaCloudSdkGoERROR])), d,
           calls ++ List.replicate (k + 1) (Call.DoRequest "ModifySmbAcl" request)⟩) ∧
    (∀ parts request, ParseResourceId d.Id 3 = .ok parts →
      resourceAlicloudNasSmbAclAttachmentDelete.request env parts = .ok request →
      k ≤ d.Timeout TimeoutKey.TimeoutDelete →
      FirstNonTransient env "DisableSmbAcl" request calls k e →
      resourceAlicloudNasSmbAclAttachmentDelete env d calls
        = ⟨Exit.returned (if env.IsExpectedErrors e ["Forbidden.NasNotFound"] then none
            else some (WrapErrorf e env.DefaultErrorMsg
              [d.Id, "DisableSmbAcl", env.AlibabaCloudSdkGoERROR])), d,
           calls ++ List.replicate (k + 1) (Call.DoRequest "DisableSmbAcl" request)⟩) := by
  refine ⟨fun action request s => attempt_trichotomy env action request s,
    fun action request n hk h => Retry_first_non_transient env action request e k n calls hk h,
    ?_, ?_, ?_, ?_, ?_, ?_⟩
  · intro request hreq hk h
    have hR := Retry_first_non_transient env "CreateAccessRule" request e k _ calls hk h
    simp [resourceAlicloudNasAccessRuleCreate, hclient, hreq, hR]
  · intro parts request hparse hreq hk h
    have hR := Retry_first_non_transient env "ModifyAccessRule" request e k _ calls hk h
    simp [resourceAlicloudNasAccessRuleUpdate, hclient, hparse, hreq, hR]
  · intro parts request hparse hreq hk h
    have hR := Retry_first_non_transient env "DeleteAccessRule" request e k _ calls hk h
    cases hx : env.IsExpectedErrors e ["Forbidden.NasNotFound"] <;>
      simp [resourceAlicloudNasAccessRuleDelete, hclient, hparse, hreq, hR, hx]
  · intro hk h
    have hR := Retry_first_non_transient env "EnableSmbAcl" _ e k _ calls hk h
    simp [resourceAlicloudNasSmbAclAttachmentCreate, hclient, hR]
  · intro parts request hparse hreq hk h
    have hR := Retry_first_non_transient env "ModifySmbAcl" request e k _ calls hk h
    simp [resourceAlicloudNasSmbAclAttachmentUpdate, hclient, hparse, hreq, hR]
  · intro parts request hparse hreq hk h
    have hR := Retry_first_non_transient env "DisableSmbAcl" request e k _ calls hk h
    cases hx : env.IsExpectedErrors e ["Forbidden.NasNotFound"] <;>
      simp [resourceAlicloudNasSmbAclAttachmentDelete, hclient, hparse, hreq, hR, hx]

/-- Witness of C5: the access rule Create handler, throttled once and then
rejected with "InvalidParam", makes two attempts and returns the wrapped
"InvalidParam". -/
theorem retry_only_on_transient_witness :
    resourceAlicloudNasAccessRuleCreate rejectingEnv sampleRule []
      = ⟨Exit.returned (some (WrapErrorf (Error.remote "InvalidParam")
          rejectingEnv.DefaultErrorMsg
          ["alicloud_nas_access_rule", "CreateAccessRule",
            rejectingEnv.AlibabaCloudSdkGoERROR])), sampleRule,
         [] ++ List.replicate (1 + 1) (Call.DoRequest "CreateAccessRule"
           ⟨[("FileSystemType", Value.str "standard"), ("Priority", Value.int 1),
             ("SourceCidrIp", Value.str "10.0.0.0/8"),
             ("UserAccessType", Value.str "no_squash"), ("RWAccessType", Value.str "RDWR"),
             ("AccessGroupName", Value.str "grp"),
             ("RegionId", Value.str "cn-hangzhou")]⟩)⟩ :=
  (retry_only_on_transient rejectingEnv sampleRule [] 1 (Error.remote "InvalidParam")
    rfl).2.2.1 _ rfl (by decide) ⟨by decide, rfl, rfl⟩

/-- Counterexample to C5 as stated: the access rule Delete handler gets the
error "Forbidden.NasNotFound" on its first attempt; `NeedRetry` does not hold
for it, the loop ends after this one attempt, and yet the handler does not
report the error: it returns nil. -/
theorem retry_error_not_reported_by_Delete :
    nasGoneEnv.DoRequest [] "DeleteAccessRule"
        ⟨[("FileSystemType", Value.str "standard"), ("AccessRuleId", Value.str "r-1"),
          ("AccessGroupName", Value.str "grp"), ("RegionId", Value.str "cn-hangzhou")]⟩
      = .error (Error.remote "Forbidden.NasNotFound") ∧
    nasGoneEnv.NeedRetry (Error.remote "Forbidden.NasNotFound") = false ∧
    resourceAlicloudNasAccessRuleDelete nasGoneEnv
        { sampleRule with id := "grp:r-1:standard" } []
      = ⟨Exit.returned none, { sampleRule with id := "grp:r-1:standard" },
         [Call.DoRequest "DeleteAccessRule"
           ⟨[("FileSystemType", Value.str "standard"), ("AccessRuleId", Value.str "r-1"),
             ("AccessGroupName", Value.str "grp"), ("RegionId", Value.str "cn-hangzhou")]⟩]⟩ := by
  refine ⟨rfl, by decide, by decide⟩

/-! ## Request maps -/

theorem ok_bind {ε α β : Type} (a : α) (f : α → Except ε β) :
    (Except.ok a >>= f) = f a := rfl

theorem pure_eq_ok {ε α : Type} (a : α) : (pure a : Except ε α) = Except.ok a := rfl

theorem find?_empty (key : String) : GoMap.empty.find? key = none := rfl

theorem find?_assignIf (m : GoMap) (c : Bool) (k key : String) (v : Value) :
    (m.assignIf c k v).find? key = if c = true ∧ key = k then some v else m.find? key := by
  cases c <;> simp [GoMap.assignIf, find?_assign]

theorem index_assign (m : GoMap) (k key : String) (v : Value) :
    (m.assign k v).index key = if key = k then v else m.index key := by
  by_cases h : key = k <;> simp [GoMap.index, find?_assign, h]

theorem index_assignIf (m : GoMap) (c : Bool) (k key : String) (v : Value) :
    (m.assignIf c k v).index key = if c = true ∧ key = k then v else m.index key := by
  cases c <;> simp [GoMap.assignIf, index_assign]

theorem nonEmptyString_str (d : ResourceData) (key s : String)
    (h : d.Get key = Value.str s) :
    nonEmptyString (d.GetOk key) = .ok (s != "") := by
  by_cases e : s = "" <;>
    simp [nonEmptyString, ResourceData.GetOk, h, Value.isZero, assertString, e]

theorem accessRuleCreate_request_eq (env : Env) (d : ResourceData) (rw ua sc s6 : String)
    (h1 : d.Get "rw_access_type" = Value.str rw)
    (h2 : d.Get "user_access_type" = Value.str ua)
    (h3 : d.Get "source_cidr_ip" = Value.str sc)
    (h4 : d.Get "ipv6_source_cidr_ip" = Value.str s6) :
    resourceAlicloudNasAccessRuleCreate.request env d
      = .ok ((((((((GoMap.empty.assign "RegionId" (Value.str env.Region)).assign
          "AccessGroupName" (d.Get "access_group_name")).assignIf (rw != "")
          "RWAccessType" (Value.str rw)).assignIf (ua != "")
          "UserAccessType" (Value.str ua)).assignIf (sc != "")
          "SourceCidrIp" (Value.str sc)).assignIf (s6 != "")
          "Ipv6SourceCidrIp" (Value.str s6)).assign
          "Priority" (d.Get "priority")).assign
          "FileSystemType" (d.Get "file_system_type")) := by
  simp only [resourceAlicloudNasAccessRuleCreate.request, nonEmptyString_str d _ _ h1,
    nonEmptyString_str d _ _ h2, nonEmptyString_str d _ _ h3, nonEmptyString_str d _ _ h4,
    ok_bind, pure_eq_ok]
  simp only [ResourceData.GetOk, h1, h2, h3, h4]

/-- C6: for every configuration (the four optional attributes being
strings, as their schema type says), the request map built by the access rule
Create handler has the keys RegionId, AccessGroupName (the value of
access_group_name), Priority (the value of priority) and FileSystemType (the
value of file_system_type); it has RWAccessType, UserAccessType, SourceCidrIp
and Ipv6SourceCidrIp exactly when rw_access_type, user_access_type,
source_cidr_ip, ipv6_source_cidr_ip is a non-empty string, and then with that
value; and it has no other key. -/
theorem accessRuleCreate_request_keys (env : Env) (d : ResourceData) (rw ua sc s6 : String)
    (h1 : d.Get "rw_access_type" = Value.str rw)
    (h2 : d.Get "user_access_type" = Value.str ua)
    (h3 : d.Get "source_cidr_ip" = Value.str sc)
    (h4 : d.Get "ipv6_source_cidr_ip" = Value.str s6) :
    ∃ request, resourceAlicloudNasAccessRuleCreate.request env d = .ok request ∧
      request.find? "RegionId" = some (Value.str env.Region) ∧
      request.find? "AccessGroupName" = some (d.Get "access_group_name") ∧
      request.find? "Priority" = some (d.Get "priority") ∧
      request.find? "FileSystemType" = some (d.Get "file_system_type") ∧
      request.find? "RWAccessType" = (if rw = "" then none else some (Value.str rw)) ∧
      request.find? "UserAccessType" = (if ua = "" then none else some (Value.str ua)) ∧
      request.find? "SourceCidrIp" = (if sc = "" then none else some (Value.str sc)) ∧
      request.find? "Ipv6SourceCidrIp" = (if s6 = "" then none else some (Value.str s6)) ∧
      (∀ key, key ∉ ["RegionId", "AccessGroupName", "Priority", "FileSystemType",
        "RWAccessType", "UserAccessType", "SourceCidrIp", "Ipv6SourceCidrIp"] →
        request.find? key = none) := by
  refine ⟨_, accessRuleCreate_request_eq env d rw ua sc s6 h1 h2 h3 h4, ?_⟩
  refine ⟨?_, ?_, ?_, ?_, ?_, ?_, ?_, ?_, ?_⟩
  · simp [find?_assign, find?_assignIf]
  · simp [find?_assign, find?_assignIf]
  · simp [find?_assign, find?_assignIf]
  · simp [find?_assign, find?_assignIf]
  · by_cases e : rw = "" <;> simp [find?_assign, find?_assignIf, find?_empty, e]
  · by_cases e : ua = "" <;> simp [find?_assign, find?_assignIf, find?_empty, e]
  · by_cases e : sc = "" <;> simp [find?_assign, find?_assignIf, find?_empty, e]
  · by_cases e : s6 = "" <;> simp [find?_assign, find?_assignIf, find?_empty, e]
  · intro key hkey
    simp only [List.mem_cons, List.mem_singleton, List.not_mem_nil, or_false, not_or] at hkey
    obtain ⟨k1, k2, k3, k4, k5, k6, k7, k8⟩ := hkey
    simp [find?_assign, find?_assignIf, find?_empty, k1, k2, k3, k4, k5, k6, k7, k8]

/-- Witness of C6: the request built for the sample rule, whose IPv6 range is
empty, has SourceCidrIp and no Ipv6SourceCidrIp. -/
theorem accessRuleCreate_request_keys_witness :
    ∃ request, resourceAlicloudNasAccessRuleCreate.request sampleEnv sampleRule = .ok request ∧
      request.find? "RegionId" = some (Value.str sampleEnv.Region) ∧
      request.find? "AccessGroupName" = some (sampleRule.Get "access_group_name") ∧
      request.find? "Priority" = some (sampleRule.Get "priority") ∧
      request.find? "FileSystemType" = some (sampleRule.Get "file_system_type") ∧
      request.find? "RWAccessType" = (if "RDWR" = "" then none else some (Value.str "RDWR")) ∧
      request.find? "UserAccessType"
        = (if "no_squash" = "" then none else some (Value.str "no_squash")) ∧
      request.find? "SourceCidrIp"
        = (if "10.0.0.0/8" = "" then none else some (Value.str "10.0.0.0/8")) ∧
      request.find? "Ipv6SourceCidrIp" = (if "" = "" then none else some (Value.str "")) ∧
      (∀ key, key ∉ ["RegionId", "AccessGroupName", "Priority", "FileSystemType",
        "RWAccessType", "UserAccessType", "SourceCidrIp", "Ipv6SourceCidrIp"] →
        request.find? key = none) :=
  accessRuleCreate_request_keys sampleEnv sampleRule "RDWR" "no_squash" "10.0.0.0/8" ""
    rfl rfl rfl rfl

/-! ## Access rule Update -/

theorem fromObject_calls (env : Env) (d : ResourceData) (object : GoMap) (calls : List Call) :
    (resourceAlicloudNasAccessRuleRead.fromObject env d object calls).calls = calls := by
  unfold resourceAlicloudNasAccessRuleRead.fromObject
  cases env.formatInt (object.index "Priority") <;> rfl

theorem accessRuleRead_calls (env : Env) (d : ResourceData) (calls : List Call) :
    (resourceAlicloudNasAccessRuleRead env d calls).calls
      = calls ++ [Call.DescribeNasAccessRule d.Id] := by
  simp only [resourceAlicloudNasAccessRuleRead]
  repeat' split
  all_goals first
    | rfl
    | exact fromObject_calls _ _ _ _

theorem accessRuleUpdate_request_eq (env : Env) (d : ResourceData) (p0 p1 p2 sc s6 : String)
    (h3 : d.Get "source_cidr_ip" = Value.str sc)
    (h4 : d.Get "ipv6_source_cidr_ip" = Value.str s6) :
    resourceAlicloudNasAccessRuleUpdate.request env d [p0, p1, p2]
      = .ok (((((((((GoMap.empty.assign "RegionId" (Value.str env.RegionId)).assign
          "AccessGroupName" (Value.str p0)).assign "AccessRuleId" (Value.str p1)).assign
          "FileSystemType" (Value.str p2)).assign
          "RWAccessType" (d.Get "rw_access_type")).assign
          "UserAccessType" (d.Get "user_access_type")).assign
          "Priority" (d.Get "priority")).assignIf (s6 != "")
          "Ipv6SourceCidrIp" (Value.str s6)).assignIf (sc != "")
          "SourceCidrIp" (Value.str sc),
        d.HasChange "rw_access_type" || d.HasChange "user_access_type" ||
          d.HasChange "priority" || s6 != "" || sc != "") := by
  simp only [resourceAlicloudNasAccessRuleUpdate.request, nonEmptyString_str d _ _ h3,
    nonEmptyString_str d _ _ h4, ok_bind, pure_eq_ok, sliceIndex, List.get?]
  simp only [h3, h4]
  cases d.HasChange "rw_access_type" <;> cases d.HasChange "user_access_type" <;>
    cases d.HasChange "priority" <;> cases (s6 != "") <;> cases (sc != "") <;> rfl

/-- C9: given an obtained client and an id of three parts (the two CIDR
attributes being strings, as their schema type says), the access rule Update
handler issues the ModifyAccessRule call if and only if rw_access_type,
user_access_type or priority has changed, or source_cidr_ip is a non-empty
string, or ipv6_source_cidr_ip is a non-empty string.  In particular a
non-empty CIDR attribute makes it issue the call whatever has changed, and
when the call is not issued Update does what Read does. -/
theorem accessRuleUpdate_issues_call_iff (env : Env) (d : ResourceData) (calls : List Call)
    (p0 p1 p2 sc s6 : String)
    (hclient : env.NewNasClient = none)
    (hparts : strings.Split d.Id ':' = [p0, p1, p2])
    (h3 : d.Get "source_cidr_ip" = Value.str sc)
    (h4 : d.Get "ipv6_source_cidr_ip" = Value.str s6) :
    ((∃ request rest, (resourceAlicloudNasAccessRuleUpdate env d calls).calls
        = calls ++ Call.DoRequest "ModifyAccessRule" request :: rest) ↔
      (d.HasChange "rw_access_type" = true ∨ d.HasChange "user_access_type" = true ∨
        d.HasChange "priority" = true ∨ sc ≠ "" ∨ s6 ≠ "")) ∧
    ((sc ≠ "" ∨ s6 ≠ "") →
      ∃ request rest, (resourceAlicloudNasAccessRuleUpdate env d calls).calls
        = calls ++ Call.DoRequest "ModifyAccessRule" request :: rest) ∧
    (¬ (d.HasChange "rw_access_type" = true ∨ d.HasChange "user_access_type" = true ∨
        d.HasChange "priority" = true ∨ sc ≠ "" ∨ s6 ≠ "") →
      resourceAlicloudNasAccessRuleUpdate env d calls
        = resourceAlicloudNasAccessRuleRead env d calls) := by
  have hparse : ParseResourceId d.Id 3 = .ok [p0, p1, p2] := by
    rw [ParseResourceId_of_length_eq d.Id (by rw [hparts]; rfl), hparts]
  obtain ⟨request, hreq⟩ : ∃ request,
      resourceAlicloudNasAccessRuleUpdate.request env d [p0, p1, p2]
        = .ok (request, d.HasChange "rw_access_type" || d.HasChange "user_access_type" ||
          d.HasChange "priority" || s6 != "" || sc != "") :=
    ⟨_, accessRuleUpdate_request_eq env d p0 p1 p2 sc s6 h3 h4⟩
  have hflag : (d.HasChange "rw_access_type" || d.HasChange "user_access_type" ||
      d.HasChange "priority" || s6 != "" || sc != "") = true ↔
      (d.HasChange "rw_access_type" = true ∨ d.HasChange "user_access_type" = true ∨
        d.HasChange "priority" = true ∨ sc ≠ "" ∨ s6 ≠ "") := by
    simp only [Bool.or_eq_true, bne_iff_ne, ne_eq]
    tauto
  have hyes : (d.HasChange "rw_access_type" = true ∨ d.HasChange "user_access_type" = true ∨
      d.HasChange "priority" = true ∨ sc ≠ "" ∨ s6 ≠ "") →
      ∃ request rest, (resourceAlicloudNasAccessRuleUpdate env d calls).calls
        = calls ++ Call.DoRequest "ModifyAccessRule" request :: rest := by
    intro h
    have hf := hflag.mpr h
    obtain ⟨m, hm⟩ := Retry_calls env "ModifyAccessRule" request
      (d.Timeout TimeoutKey.TimeoutUpdate) ⟨GoMap.empty, calls⟩
    cases hR : Retry (d.Timeout TimeoutKey.TimeoutUpdate)
        (attempt env "ModifyAccessRule" request) ⟨GoMap.empty, calls⟩ with
    | mk r s1 =>
      rw [hR] at hm
      simp only [List.replicate_succ] at hm
      cases r with
      | some err =>
        refine ⟨request, List.replicate m (Call.DoRequest "ModifyAccessRule" request), ?_⟩
        simp only [resourceAlicloudNasAccessRuleUpdate, hclient, hparse, hreq, hf, hR, if_true]
        exact hm
      | none =>
        refine ⟨request, List.replicate m (Call.DoRequest "ModifyAccessRule" request)
          ++ [Call.DescribeNasAccessRule d.Id], ?_⟩
        simp only [resourceAlicloudNasAccessRuleUpdate, hclient, hparse, hreq, hf, hR, if_true]
        rw [accessRuleRead_calls, hm]
        simp
  have hno : ¬ (d.HasChange "rw_access_type" = true ∨ d.HasChange "user_access_type" = true ∨
      d.HasChange "priority" = true ∨ sc ≠ "" ∨ s6 ≠ "") →
      resourceAlicloudNasAccessRuleUpdate env d calls
        = resourceAlicloudNasAccessRuleRead env d calls := by
    intro h
    have hf : (d.HasChange "rw_access_type" || d.HasChange "user_access_type" ||
        d.HasChange "priority" || s6 != "" || sc != "") = false := by
      rw [← Bool.not_eq_true]
      exact fun hc => h (hflag.mp hc)
    simp [resourceAlicloudNasAccessRuleUpdate, hclient, hparse, hreq, hf]
  refine ⟨⟨?_, hyes⟩, fun h => hyes (Or.inr (Or.inr (Or.inr h))), hno⟩
  rintro ⟨request, rest, hcalls⟩
  by_contra h
  rw [hno h, accessRuleRead_calls] at hcalls
  have := List.append_cancel_left hcalls
  simp at this

/-- Witness of C9: for the settled sample rule nothing has changed, and yet,
its IPv4 range being non-empty, Update issues ModifyAccessRule. -/
theorem accessRuleUpdate_issues_call_iff_witness :
    ∃ request rest, (resourceAlicloudNasAccessRuleUpdate sampleEnv settledRule []).calls
      = [] ++ Call.DoRequest "ModifyAccessRule" request :: rest :=
  (accessRuleUpdate_issues_call_iff sampleEnv settledRule [] "grp" "r-1" "standard"
    "10.0.0.0/8" "" rfl (by decide) rfl rfl).2.1 (Or.inl (by decide))

/-! ## Ids set by Create -/

theorem error_bind {ε α β : Type} (p : ε) (f : α → Except ε β) :
    (Except.error p >>= f) = Except.error p := rfl

theorem accessRuleCreate_request_index (env : Env) (d : ResourceData) (request : GoMap)
    (h : resourceAlicloudNasAccessRuleCreate.request env d = .ok request) :
    request.index "AccessGroupName" = d.Get "access_group_name" ∧
    request.index "FileSystemType" = d.Get "file_system_type" := by
  simp only [resourceAlicloudNasAccessRuleCreate.request] at h
  cases h1 : nonEmptyString (d.GetOk "rw_access_type") with
  | error p => simp [h1, error_bind] at h
  | ok b1 =>
    cases h2 : nonEmptyString (d.GetOk "user_access_type") with
    | error p => simp [h1, h2, ok_bind, error_bind] at h
    | ok b2 =>
      cases h3 : nonEmptyString (d.GetOk "source_cidr_ip") with
      | error p => simp [h1, h2, h3, ok_bind, error_bind] at h
      | ok b3 =>
        cases h4 : nonEmptyString (d.GetOk "ipv6_source_cidr_ip") with
        | error p => simp [h1, h2, h3, h4, ok_bind, error_bind] at h
        | ok b4 =>
          simp only [h1, h2, h3, h4, ok_bind, pure_eq_ok, Except.ok.injEq] at h
          subst h
          simp [index_assign, index_assignIf]

theorem accessRuleUpdate_request_index (env : Env) (d : ResourceData) (p0 p1 p2 : String)
    (request : GoMap) (update : Bool)
    (h : resourceAlicloudNasAccessRuleUpdate.request env d [p0, p1, p2]
      = .ok (request, update)) :
    request.index "AccessGroupName" = Value.str p0 ∧
    request.index "AccessRuleId" = Value.str p1 ∧
    request.index "FileSystemType" = Value.str p2 := by
  simp only [resourceAlicloudNasAccessRuleUpdate.request, sliceIndex, List.get?, ok_bind] at h
  cases h1 : nonEmptyString (d.GetOk "ipv6_source_cidr_ip") with
  | error p => simp [h1, error_bind] at h
  | ok b1 =>
    cases h2 : nonEmptyString (d.GetOk "source_cidr_ip") with
    | error p => simp [h1, h2, ok_bind, error_bind] at h
    | ok b2 =>
      simp only [h1, h2, ok_bind, pure_eq_ok, Except.ok.injEq, Prod.mk.injEq] at h
      obtain ⟨h, _⟩ := h
      subst h
      simp [index_assign, index_assignIf]

theorem Sprint_id (a b c : String) :
    fmt.Sprint [Value.str a, Value.str ":", Value.str b, Value.str ":", Value.str c]
      = a ++ ":" ++ b ++ ":" ++ c := by
  simp [fmt.Sprint, Value.format, Value.isString, String.append_assoc]

/-- C1: let the access rule Create handler obtain its client, build its
request without a panic and have its retried call succeed with the rule id
`r`, where the group name `g`, `r` and the file system type `t` contain no
':'.  Then Create sets the id to `g:r:t` and goes on as Read does from there;
splitting that id on ':' gives `[g, r, t]`, `ParseResourceId` accepts it, and
the requests built from it by Delete and Update carry AccessGroupName = g,
AccessRuleId = r and FileSystemType = t.  When the describe call of that Read
succeeds, Create ends with the id `g:r:t`. -/
theorem accessRuleCreate_id_round_trip (env : Env) (d : ResourceData) (calls : List Call)
    (g r t : String) (request : GoMap) (s : Attempted)
    (hg : ':' ∉ g.data) (hr : ':' ∉ r.data) (ht : ':' ∉ t.data)
    (hclient : env.NewNasClient = none)
    (hgroup : d.Get "access_group_name" = Value.str g)
    (htype : d.Get "file_system_type" = Value.str t)
    (hreq : resourceAlicloudNasAccessRuleCreate.request env d = .ok request)
    (hretry : Retry (d.Timeout TimeoutKey.TimeoutCreate)
      (attempt env "CreateAccessRule" request) ⟨GoMap.empty, calls⟩ = (none, s))
    (hrule : s.response.index "AccessRuleId" = Value.str r) :
    resourceAlicloudNasAccessRuleCreate env d calls
      = resourceAlicloudNasAccessRuleRead env (d.SetId (g ++ ":" ++ r ++ ":" ++ t)) s.calls ∧
    strings.Split (g ++ ":" ++ r ++ ":" ++ t) ':' = [g, r, t] ∧
    ParseResourceId (g ++ ":" ++ r ++ ":" ++ t) 3 = .ok [g, r, t] ∧
    (∃ req, resourceAlicloudNasAccessRuleDelete.request env [g, r, t] = .ok req ∧
      req.index "AccessGroupName" = Value.str g ∧ req.index "AccessRuleId" = Value.str r ∧
      req.index "FileSystemType" = Value.str t) ∧
    (∀ d2 req update, resourceAlicloudNasAccessRuleUpdate.request env d2 [g, r, t]
        = .ok (req, update) →
      req.index "AccessGroupName" = Value.str g ∧ req.index "AccessRuleId" = Value.str r ∧
      req.index "FileSystemType" = Value.str t) ∧
    (∀ object, env.DescribeNasAccessRule s.calls (g ++ ":" ++ r ++ ":" ++ t) = .ok object →
      (resourceAlicloudNasAccessRuleCreate env d calls).d.Id = g ++ ":" ++ r ++ ":" ++ t) := by
  obtain ⟨hi1, hi2⟩ := accessRuleCreate_request_index env d request hreq
  have hcreate : resourceAlicloudNasAccessRuleCreate env d calls
      = resourceAlicloudNasAccessRuleRead env (d.SetId (g ++ ":" ++ r ++ ":" ++ t))
          s.calls := by
    simp only [resourceAlicloudNasAccessRuleCreate, hclient, hreq, hretry, hi1, hi2, hgroup,
      htype, hrule, Sprint_id]
  have hsplit := Split_three g r t hg hr ht
  refine ⟨hcreate, hsplit, ParseResourceId_three g r t hg hr ht,
    ⟨_, accessRuleDelete_request_three env g r t, ?_⟩,
    fun d2 req update h => accessRuleUpdate_request_index env d2 g r t req update h, ?_⟩
  · simp [index_assign]
  · intro object hdesc
    rw [hcreate]
    have hdesc2 : env.DescribeNasAccessRule s.calls
        (d.SetId (g ++ ":" ++ r ++ ":" ++ t)).Id = .ok object := hdesc
    have hparts : strings.Split (d.SetId (g ++ ":" ++ r ++ ":" ++ t)).Id ':' = [g, r, t] :=
      hsplit
    rw [Read_more_parts env _ s.calls object g r t [] hdesc2 hparts]
    show (resourceAlicloudNasAccessRuleRead.fromObject _ _ _ _).d.id = _
    rw [fromObject_id]
    rfl

/-- Witness of C1: Create of the sample rule, answered with the rule id
"r-1", sets the id to "grp:r-1:standard" and ends with it. -/
theorem accessRuleCreate_id_round_trip_witness :
    (resourceAlicloudNasAccessRuleCreate sampleEnv sampleRule []).d.Id
      = "grp" ++ ":" ++ "r-1" ++ ":" ++ "standard" :=
  (accessRuleCreate_id_round_trip sampleEnv sampleRule [] "grp" "r-1" "standard" _ _
    (by decide) (by decide) (by decide) rfl rfl rfl rfl rfl rfl).2.2.2.2.2 GoMap.empty rfl

/-! ## SMB ACL attachment: id round trip and Update -/

theorem smbRead_three_parts_eq (env : Env) (d : ResourceData) (calls : List Call)
    (object : GoMap) (p0 p1 p2 : String)
    (hdesc : env.DescribeNasSmbAcl calls d.Id = .ok object)
    (hparts : strings.Split d.Id ':' = [p0, p1, p2]) :
    resourceAlicloudNasSmbAclAttachmentRead env d calls
      = ⟨Exit.returned none,
          ((((((((((d.Set "file_system_id" (Value.str p0)).Set "keytab" (Value.str p1)).Set
            "keytab_md5" (Value.str p2)).Set
            "auth_method" (Value.str (fmt.Sprint [object.index "AuthMethod"]))).Set
            "enable_anonymous_access"
              (Value.str (fmt.Sprint [object.index "EnableAnonymousAccess"]))).Set
            "encrypt_data" (Value.str (fmt.Sprint [object.index "EncryptData"]))).Set
            "reject_unencrypted_access"
              (Value.str (fmt.Sprint [object.index "RejectUnencryptedAccess"]))).Set
            "super_admin_sid" (Value.str (fmt.Sprint [object.index "SuperAdminSid"]))).Set
            "home_dir_path" (Value.str (fmt.Sprint [object.index "HomeDirPath"]))).Set
            "enabled" (Value.str (fmt.Sprint [object.index "Enabled"]))),
          calls ++ [Call.DescribeNasSmbAcl d.Id]⟩ := by
  have hparse : ParseResourceId d.Id 3 = .ok [p0, p1, p2] := by
    rw [ParseResourceId_of_length_eq d.Id (by rw [hparts]; rfl), hparts]
  simp only [resourceAlicloudNasSmbAclAttachmentRead, hdesc, hparse, sliceIndex, List.get?]

theorem Id_Set (d : ResourceData) (key : String) (v : Value) : (d.Set key v).Id = d.Id := rfl

theorem smbRead_three_parts (env : Env) (d : ResourceData) (calls : List Call)
    (object : GoMap) (p0 p1 p2 : String)
    (hdesc : env.DescribeNasSmbAcl calls d.Id = .ok object)
    (hparts : strings.Split d.Id ':' = [p0, p1, p2]) :
    (resourceAlicloudNasSmbAclAttachmentRead env d calls).exit = Exit.returned none ∧
    (resourceAlicloudNasSmbAclAttachmentRead env d calls).d.Id = d.Id ∧
    (resourceAlicloudNasSmbAclAttachmentRead env d calls).d.Get "file_system_id"
      = Value.str p0 ∧
    (resourceAlicloudNasSmbAclAttachmentRead env d calls).d.Get "keytab" = Value.str p1 ∧
    (resourceAlicloudNasSmbAclAttachmentRead env d calls).d.Get "keytab_md5"
      = Value.str p2 := by
  rw [smbRead_three_parts_eq env d calls object p0 p1 p2 hdesc hparts]
  refine ⟨rfl, ?_, ?_, ?_, ?_⟩
  · simp only [Id_Set]
  · simp [Get_Set]
  · simp [Get_Set]
  · simp [Get_Set]

/-- C2: let the SMB ACL attachment Create handler obtain its client and have
its retried call succeed, where the file system id `f`, the keytab `k` and
the checksum `m` contain no ':'.  Then Create sets the id to `f:k:m` and goes
on as Read does from there; and every Read on that id whose describe call
succeeds returns nil, keeps the id and stores file_system_id = f,
keytab = k and keytab_md5 = m. -/
theorem smbCreate_id_round_trip (env : Env) (d : ResourceData) (calls : List Call)
    (f k m : String) (s : Attempted)
    (hf : ':' ∉ f.data) (hk : ':' ∉ k.data) (hm : ':' ∉ m.data)
    (hclient : env.NewNasClient = none)
    (hfs : d.Get "file_system_id" = Value.str f)
    (hkt : d.Get "keytab" = Value.str k)
    (hmd : d.Get "keytab_md5" = Value.str m)
    (hretry : Retry (d.Timeout TimeoutKey.TimeoutCreate)
      (attempt env "EnableSmbAcl" (resourceAlicloudNasSmbAclAttachmentCreate.request env d))
      ⟨GoMap.empty, calls⟩ = (none, s)) :
    resourceAlicloudNasSmbAclAttachmentCreate env d calls
      = resourceAlicloudNasSmbAclAttachmentRead env
          (d.SetId (f ++ ":" ++ k ++ ":" ++ m)) s.calls ∧
    (∀ d2 calls2 object, d2.Id = f ++ ":" ++ k ++ ":" ++ m →
      env.DescribeNasSmbAcl calls2 d2.Id = .ok object →
      (resourceAlicloudNasSmbAclAttachmentRead env d2 calls2).exit = Exit.returned none ∧
      (resourceAlicloudNasSmbAclAttachmentRead env d2 calls2).d.Id
        = f ++ ":" ++ k ++ ":" ++ m ∧
      (resourceAlicloudNasSmbAclAttachmentRead env d2 calls2).d.Get "file_system_id"
        = Value.str f ∧
      (resourceAlicloudNasSmbAclAttachmentRead env d2 calls2).d.Get "keytab"
        = Value.str k ∧
      (resourceAlicloudNasSmbAclAttachmentRead env d2 calls2).d.Get "keytab_md5"
        = Value.str m) := by
  constructor
  · have hi : (resourceAlicloudNasSmbAclAttachmentCreate.request env d).index "FileSystemId"
          = Value.str f ∧
        (resourceAlicloudNasSmbAclAttachmentCreate.request env d).index "Keytab"
          = Value.str k ∧
        (resourceAlicloudNasSmbAclAttachmentCreate.request env d).index "KeytabMd5"
          = Value.str m := by
      simp [resourceAlicloudNasSmbAclAttachmentCreate.request, index_assign, hfs, hkt, hmd]
    obtain ⟨hi1, hi2, hi3⟩ := hi
    simp only [resourceAlicloudNasSmbAclAttachmentCreate, hclient, hretry, hi1, hi2, hi3,
      Sprint_id]
  · intro d2 calls2 object hid hdesc
    have hparts : strings.Split d2.Id ':' = [f, k, m] := by
      rw [hid]
      exact Split_three f k m hf hk hm
    have h := smbRead_three_parts env d2 calls2 object f k m hdesc hparts
    rw [hid] at h
    exact h

/-- Witness of C2: Create of the sample attachment sets the id to
"fs-1:a2V5dGFi:0cc175b9", and the Read that follows stores the three parts. -/
theorem smbCreate_id_round_trip_witness :
    resourceAlicloudNasSmbAclAttachmentCreate sampleEnv sampleAttachment []
      = resourceAlicloudNasSmbAclAttachmentRead sampleEnv
          (sampleAttachment.SetId ("fs-1" ++ ":" ++ "a2V5dGFi" ++ ":" ++ "0cc175b9"))
          [Call.DoRequest "EnableSmbAcl"
            (resourceAlicloudNasSmbAclAttachmentCreate.request sampleEnv sampleAttachment)] :=
  (smbCreate_id_round_trip sampleEnv sampleAttachment [] "fs-1" "a2V5dGFi" "0cc175b9"
    ⟨⟨[("AccessRuleId", Value.str "r-1")]⟩,
      [Call.DoRequest "EnableSmbAcl"
        (resourceAlicloudNasSmbAclAttachmentCreate.request sampleEnv sampleAttachment)]⟩
    (by decide) (by decide) (by decide) rfl rfl rfl rfl rfl).1

/-- C7, evaluated on the code: the attachment "fs-1:a2V5dGFi:0cc175b9" is
given the new keytab "bmV3" and checksum "92eb5ffe".  Update returns nil,
having sent ModifySmbAcl with the new Keytab and KeytabMd5 and read the
attachment back, and the state it leaves records the old keytab "a2V5dGFi"
and the old checksum "0cc175b9", which Read takes from the unchanged id. -/
theorem smbUpdate_keeps_stale_keytab :
    rekeyedAttachment.HasChange "keytab" = true ∧
    rekeyedAttachment.Get "keytab" = Value.str "bmV3" ∧
    rekeyedAttachment.Get "keytab_md5" = Value.str "92eb5ffe" ∧
    (resourceAlicloudNasSmbAclAttachmentUpdate sampleEnv rekeyedAttachment []).exit
      = Exit.returned none ∧
    (∃ request,
      (resourceAlicloudNasSmbAclAttachmentUpdate sampleEnv rekeyedAttachment []).calls
        = [Call.DoRequest "ModifySmbAcl" request,
           Call.DescribeNasSmbAcl "fs-1:a2V5dGFi:0cc175b9"] ∧
      request.index "Keytab" = Value.str "bmV3" ∧
      request.index "KeytabMd5" = Value.str "92eb5ffe") ∧
    (resourceAlicloudNasSmbAclAttachmentUpdate sampleEnv rekeyedAttachment []).d.Id
      = "fs-1:a2V5dGFi:0cc175b9" ∧
    (resourceAlicloudNasSmbAclAttachmentUpdate sampleEnv rekeyedAttachment []).d.Get "keytab"
      = Value.str "a2V5dGFi" ∧
    (resourceAlicloudNasSmbAclAttachmentUpdate sampleEnv rekeyedAttachment []).d.Get
      "keytab_md5" = Value.str "0cc175b9" := by
  refine ⟨by decide, by decide, by decide, by decide, ⟨_, rfl, by decide, by decide⟩,
    by decide, by decide, by decide⟩

/-! ## Read: what it stores, and what it does when the describe call fails -/

theorem fromObject_eq (env : Env) (d : ResourceData) (object : GoMap) (calls : List Call)
    (n : Int) (hfmt : env.formatInt (object.index "Priority") = some n) :
    resourceAlicloudNasAccessRuleRead.fromObject env d object calls
      = ⟨Exit.returned none,
          ((((d.Set "source_cidr_ip" (object.index "SourceCidrIp")).Set
            "priority" (Value.int n)).Set
            "rw_access_type" (object.index "RWAccess")).Set
            "user_access_type" (object.index "UserAccess")).Set
            "ipv6_source_cidr_ip" (object.index "Ipv6SourceCidrIp"), calls⟩ := by
  simp only [resourceAlicloudNasAccessRuleRead.fromObject, hfmt]

theorem accessRuleRead_of_two_parts (env : Env) (d : ResourceData) (calls : List Call)
    (object : GoMap) (hdesc : env.DescribeNasAccessRule calls d.Id = .ok object)
    (hlen : 2 ≤ (strings.Split d.Id ':').length) :
    ∃ d1, resourceAlicloudNasAccessRuleRead env d calls
      = resourceAlicloudNasAccessRuleRead.fromObject env d1 object
          (calls ++ [Call.DescribeNasAccessRule d.Id]) := by
  cases hparts : strings.Split d.Id ':' with
  | nil => simp [hparts] at hlen
  | cons p0 rest =>
    cases rest with
    | nil => simp [hparts] at hlen
    | cons p1 rest =>
      cases rest with
      | nil => exact ⟨_, Read_two_parts env d calls object p0 p1 hdesc hparts⟩
      | cons p2 rest => exact ⟨_, Read_more_parts env d calls object p0 p1 p2 rest hdesc hparts⟩

theorem accessRuleRead_fetch (env : Env) (d : ResourceData) (calls : List Call)
    (object : GoMap) (n : Int)
    (hdesc : env.DescribeNasAccessRule calls d.Id = .ok object)
    (hfmt : env.formatInt (object.index "Priority") = some n)
    (hlen : 2 ≤ (strings.Split d.Id ':').length) :
    (resourceAlicloudNasAccessRuleRead env d calls).exit = Exit.returned none ∧
    (resourceAlicloudNasAccessRuleRead env d calls).calls
      = calls ++ [Call.DescribeNasAccessRule d.Id] ∧
    (resourceAlicloudNasAccessRuleRead env d calls).d.Get "source_cidr_ip"
      = object.index "SourceCidrIp" ∧
    (resourceAlicloudNasAccessRuleRead env d calls).d.Get "priority" = Value.int n ∧
    (resourceAlicloudNasAccessRuleRead env d calls).d.Get "rw_access_type"
      = object.index "RWAccess" ∧
    (resourceAlicloudNasAccessRuleRead env d calls).d.Get "user_access_type"
      = object.index "UserAccess" ∧
    (resourceAlicloudNasAccessRuleRead env d calls).d.Get "ipv6_source_cidr_ip"
      = object.index "Ipv6SourceCidrIp" := by
  obtain ⟨d1, h⟩ := accessRuleRead_of_two_parts env d calls object hdesc hlen
  rw [h, fromObject_eq env d1 object _ n hfmt]
  refine ⟨rfl, rfl, ?_, ?_, ?_, ?_, ?_⟩ <;> simp [Get_Set]

theorem smbRead_fetch (env : Env) (d : ResourceData) (calls : List Call)
    (object : GoMap) (p0 p1 p2 : String)
    (hdesc : env.DescribeNasSmbAcl calls d.Id = .ok object)
    (hparts : strings.Split d.Id ':' = [p0, p1, p2]) :
    (resourceAlicloudNasSmbAclAttachmentRead env d calls).calls
      = calls ++ [Call.DescribeNasSmbAcl d.Id] ∧
    (resourceAlicloudNasSmbAclAttachmentRead env d calls).d.Get "auth_method"
      = Value.str (fmt.Sprint [object.index "AuthMethod"]) ∧
    (resourceAlicloudNasSmbAclAttachmentRead env d calls).d.Get "super_admin_sid"
      = Value.str (fmt.Sprint [object.index "SuperAdminSid"]) ∧
    (resourceAlicloudNasSmbAclAttachmentRead env d calls).d.Get "home_dir_path"
      = Value.str (fmt.Sprint [object.index "HomeDirPath"]) ∧
    (resourceAlicloudNasSmbAclAttachmentRead env d calls).d.Get "enabled"
      = Value.str (fmt.Sprint [object.index "Enabled"]) := by
  rw [smbRead_three_parts_eq env d calls object p0 p1 p2 hdesc hparts]
  refine ⟨rfl, ?_, ?_, ?_, ?_⟩ <;> simp [Get_Set]

/-- C3: each Read handler, on its own describe call.  When the describe call
fails with an error for which `NotFoundError` holds, Read returns nil and
leaves the resource data it was given with the id set to the empty string and
nothing else changed; when it fails with any other error, Read returns that
error wrapped by `WrapError` and leaves the resource data as it was.  When the
describe call succeeds, Read fetches the current values: the access rule Read
(on an id of at least two parts, `formatInt` accepting the priority) returns
nil and stores the described Priority, and the described SourceCidrIp,
RWAccess, UserAccess and Ipv6SourceCidrIp whenever they are strings; the SMB
ACL Read (on an id of three parts) returns nil, keeps the id and stores the
three parts of the id and the described AuthMethod, SuperAdminSid,
HomeDirPath and Enabled as formatted by `fmt.Sprint`. -/
theorem Read_fetches_or_reports (env : Env) (d : ResourceData) (calls : List Call) :
    (∀ e, env.DescribeNasAccessRule calls d.Id = .error e →
      resourceAlicloudNasAccessRuleRead env d calls
        = if env.NotFoundError e = true then
            ⟨Exit.returned none, { d with id := "" },
              calls ++ [Call.DescribeNasAccessRule d.Id]⟩
          else
            ⟨Exit.returned (some (WrapError e)), d,
              calls ++ [Call.DescribeNasAccessRule d.Id]⟩) ∧
    (∀ e, env.DescribeNasSmbAcl calls d.Id = .error e →
      resourceAlicloudNasSmbAclAttachmentRead env d calls
        = if env.NotFoundError e = true then
            ⟨Exit.returned none, { d with id := "" },
              calls ++ [Call.DescribeNasSmbAcl d.Id]⟩
          else
            ⟨Exit.returned (some (WrapError e)), d,
              calls ++ [Call.DescribeNasSmbAcl d.Id]⟩) ∧
    (∀ object n, env.DescribeNasAccessRule calls d.Id = .ok object →
      env.formatInt (object.index "Priority") = some n →
      2 ≤ (strings.Split d.Id ':').length →
      (resourceAlicloudNasAccessRuleRead env d calls).exit = Exit.returned none ∧
      (resourceAlicloudNasAccessRuleRead env d calls).calls
        = calls ++ [Call.DescribeNasAccessRule d.Id] ∧
      (resourceAlicloudNasAccessRuleRead env d calls).d.Get "priority" = Value.int n ∧
      (∀ v, object.index "SourceCidrIp" = Value.str v →
        (resourceAlicloudNasAccessRuleRead env d calls).d.Get "source_cidr_ip"
          = Value.str v) ∧
      (∀ v, object.index "RWAccess" = Value.str v →
        (resourceAlicloudNasAccessRuleRead env d calls).d.Get "rw_access_type"
          = Value.str v) ∧
      (∀ v, object.index "UserAccess" = Value.str v →
        (resourceAlicloudNasAccessRuleRead env d calls).d.Get "user_access_type"
          = Value.str v) ∧
      (∀ v, object.index "Ipv6SourceCidrIp" = Value.str v →
        (resourceAlicloudNasAccessRuleRead env d calls).d.Get "ipv6_source_cidr_ip"
          = Value.str v)) ∧
    (∀ object p0 p1 p2, env.DescribeNasSmbAcl calls d.Id = .ok object →
      strings.Split d.Id ':' = [p0, p1, p2] →
      (resourceAlicloudNasSmbAclAttachmentRead env d calls).exit = Exit.returned none ∧
      (resourceAlicloudNasSmbAclAttachmentRead env d calls).calls
        = calls ++ [Call.DescribeNasSmbAcl d.Id] ∧
      (resourceAlicloudNasSmbAclAttachmentRead env d calls).d.Id = d.Id ∧
      (resourceAlicloudNasSmbAclAttachmentRead env d calls).d.Get "file_system_id"
        = Value.str p0 ∧
      (resourceAlicloudNasSmbAclAttachmentRead env d calls).d.Get "keytab"
        = Value.str p1 ∧
      (resourceAlicloudNasSmbAclAttachmentRead env d calls).d.Get "keytab_md5"
        = Value.str p2 ∧
      (resourceAlicloudNasSmbAclAttachmentRead env d calls).d.Get "auth_method"
        = Value.str (fmt.Sprint [object.index "AuthMethod"]) ∧
      (resourceAlicloudNasSmbAclAttachmentRead env d calls).d.Get "super_admin_sid"
        = Value.str (fmt.Sprint [object.index "SuperAdminSid"]) ∧
      (resourceAlicloudNasSmbAclAttachmentRead env d calls).d.Get "home_dir_path"
        = Value.str (fmt.Sprint [object.index "HomeDirPath"]) ∧
      (resourceAlicloudNasSmbAclAttachmentRead env d calls).d.Get "enabled"
        = Value.str (fmt.Sprint [object.index "Enabled"])) := by
  refine ⟨?_, ?_, ?_, ?_⟩
  · intro e h
    cases hn : env.NotFoundError e <;>
      simp [resourceAlicloudNasAccessRuleRead, h, hn, ResourceData.SetId]
  · intro e h
    cases hn : env.NotFoundError e <;>
      simp [resourceAlicloudNasSmbAclAttachmentRead, h, hn, ResourceData.SetId]
  · intro object n hdesc hfmt hlen
    obtain ⟨h1, h2, h3, h4, h5, h6, h7⟩ :=
      accessRuleRead_fetch env d calls object n hdesc hfmt hlen
    exact ⟨h1, h2, h4, fun v hv => by rw [h3, hv], fun v hv => by rw [h5, hv],
      fun v hv => by rw [h6, hv], fun v hv => by rw [h7, hv]⟩
  · intro object p0 p1 p2 hdesc hparts
    obtain ⟨h1, h2, h3, h4, h5⟩ := smbRead_three_parts env d calls object p0 p1 p2 hdesc hparts
    obtain ⟨g1, g2, g3, g4, g5⟩ := smbRead_fetch env d calls object p0 p1 p2 hdesc hparts
    exact ⟨h1, g1, h2, h3, h4, h5, g2, g3, g4, g5⟩

/-- Witness of C3: where only the access rule has vanished, the access rule
Read clears the id of "grp:r-1:standard" and changes nothing else; where only
the SMB ACL describe call is refused, the SMB ACL Read returns the wrapped
error and changes nothing, while the access rule Read on the same remote side
stores the described priority 7 and the described range "192.168.0.0/16". -/
theorem Read_fetches_or_reports_witness :
    resourceAlicloudNasAccessRuleRead ruleGoneEnv settledRule []
      = ⟨Exit.returned none, { settledRule with id := "" },
          [Call.DescribeNasAccessRule "grp:r-1:standard"]⟩ ∧
    resourceAlicloudNasSmbAclAttachmentRead aclDeniedEnv rekeyedAttachment []
      = ⟨Exit.returned (some (WrapError (Error.remote "Forbidden.RAM"))), rekeyedAttachment,
          [Call.DescribeNasSmbAcl "fs-1:a2V5dGFi:0cc175b9"]⟩ ∧
    (resourceAlicloudNasAccessRuleRead aclDeniedEnv settledRule []).d.Get "priority"
      = Value.int 7 ∧
    (resourceAlicloudNasAccessRuleRead aclDeniedEnv settledRule []).d.Get "source_cidr_ip"
      = Value.str "192.168.0.0/16" :=
  ⟨((Read_fetches_or_reports ruleGoneEnv settledRule []).1
      (Error.remote "InvalidAccessRule.NotFound") rfl).trans (if_pos (by decide)),
   ((Read_fetches_or_reports aclDeniedEnv rekeyedAttachment []).2.1
      (Error.remote "Forbidden.RAM") rfl).trans (if_neg (by decide)),
   ((Read_fetches_or_reports aclDeniedEnv settledRule []).2.2.1 _ 7 rfl rfl
      (by decide)).2.2.1,
   ((Read_fetches_or_reports aclDeniedEnv settledRule []).2.2.1 _ 7 rfl rfl
      (by decide)).2.2.2.1 "192.168.0.0/16" rfl⟩

/-! ## Delete: every outcome -/

theorem accessRuleDelete_outcome (env : Env) (d : ResourceData) (calls : List Call)
    (hclient : env.NewNasClient = none) :
    ((strings.Split d.Id ':').length ≠ 3 →
      resourceAlicloudNasAccessRuleDelete env d calls
        = ⟨Exit.returned (some (WrapError (WrapError
            (Error.invalidResourceId d.Id 3 (strings.Split d.Id ':').length)))), d, calls⟩) ∧
    (∀ p0 p1 p2, strings.Split d.Id ':' = [p0, p1, p2] →
      (∀ s, Retry (d.Timeout TimeoutKey.TimeoutDelete) (attempt env "DeleteAccessRule"
          ((((GoMap.empty.assign "RegionId" (Value.str env.RegionId)).assign
          "AccessGroupName" (Value.str p0)).assign "AccessRuleId" (Value.str p1)).assign
          "FileSystemType" (Value.str p2))) ⟨GoMap.empty, calls⟩ = (none, s) →
        resourceAlicloudNasAccessRuleDelete env d calls = ⟨Exit.returned none, d, s.calls⟩) ∧
      (∀ e s, Retry (d.Timeout TimeoutKey.TimeoutDelete) (attempt env "DeleteAccessRule"
          ((((GoMap.empty.assign "RegionId" (Value.str env.RegionId)).assign
          "AccessGroupName" (Value.str p0)).assign "AccessRuleId" (Value.str p1)).assign
          "FileSystemType" (Value.str p2))) ⟨GoMap.empty, calls⟩ = (some e, s) →
        resourceAlicloudNasAccessRuleDelete env d calls
          = ⟨Exit.returned (if env.IsExpectedErrors e ["Forbidden.NasNotFound"] = true then none
              else some (WrapErrorf e env.DefaultErrorMsg
                [d.Id, "DeleteAccessRule", env.AlibabaCloudSdkGoERROR])), d, s.calls⟩) ∧
      (∃ m, (resourceAlicloudNasAccessRuleDelete env d calls).calls
        = calls ++ List.replicate (m + 1) (Call.DoRequest "DeleteAccessRule"
          ((((GoMap.empty.assign "RegionId" (Value.str env.RegionId)).assign
          "AccessGroupName" (Value.str p0)).assign "AccessRuleId" (Value.str p1)).assign
          "FileSystemType" (Value.str p2))))) ∧
    (∃ err, (resourceAlicloudNasAccessRuleDelete env d calls).exit = Exit.returned err) ∧
    (resourceAlicloudNasAccessRuleDelete env d calls).d = d := by
  have hbad : (strings.Split d.Id ':').length ≠ 3 →
      resourceAlicloudNasAccessRuleDelete env d calls
        = ⟨Exit.returned (some (WrapError (WrapError
            (Error.invalidResourceId d.Id 3 (strings.Split d.Id ':').length)))), d, calls⟩ := by
    intro hlen
    simp only [resourceAlicloudNasAccessRuleDelete, hclient, ParseResourceId_of_length_ne d.Id hlen]
  have hgood : ∀ p0 p1 p2, strings.Split d.Id ':' = [p0, p1, p2] →
      ∀ r s, Retry (d.Timeout TimeoutKey.TimeoutDelete) (attempt env "DeleteAccessRule"
          ((((GoMap.empty.assign "RegionId" (Value.str env.RegionId)).assign
          "AccessGroupName" (Value.str p0)).assign "AccessRuleId" (Value.str p1)).assign
          "FileSystemType" (Value.str p2))) ⟨GoMap.empty, calls⟩ = (r, s) →
        resourceAlicloudNasAccessRuleDelete env d calls
          = ⟨Exit.returned (match r with
              | none => none
              | some e => if env.IsExpectedErrors e ["Forbidden.NasNotFound"] = true then none
                else some (WrapErrorf e env.DefaultErrorMsg
                  [d.Id, "DeleteAccessRule", env.AlibabaCloudSdkGoERROR])), d, s.calls⟩ := by
    intro p0 p1 p2 hparts r s hR
    have hparse : ParseResourceId d.Id 3 = .ok [p0, p1, p2] := by
      rw [ParseResourceId_of_length_eq d.Id (by rw [hparts]; rfl), hparts]
    have hreq := accessRuleDelete_request_three env p0 p1 p2
    cases r with
    | none => simp only [resourceAlicloudNasAccessRuleDelete, hclient, hparse, hreq, hR]
    | some e =>
      cases hx : env.IsExpectedErrors e ["Forbidden.NasNotFound"] <;>
        simp [resourceAlicloudNasAccessRuleDelete, hclient, hparse, hreq, hR, hx]
  refine ⟨hbad, ?_, ?_, ?_⟩
  · intro p0 p1 p2 hparts
    refine ⟨fun s hR => hgood p0 p1 p2 hparts none s hR,
      fun e s hR => hgood p0 p1 p2 hparts (some e) s hR, ?_⟩
    obtain ⟨m, hm⟩ := Retry_calls env "DeleteAccessRule"
      ((((GoMap.empty.assign "RegionId" (Value.str env.RegionId)).assign
          "AccessGroupName" (Value.str p0)).assign "AccessRuleId" (Value.str p1)).assign
          "FileSystemType" (Value.str p2))
      (d.Timeout TimeoutKey.TimeoutDelete) ⟨GoMap.empty, calls⟩
    refine ⟨m, ?_⟩
    rw [hgood p0 p1 p2 hparts _ _ rfl]
    exact hm
  · by_cases hlen : (strings.Split d.Id ':').length = 3
    · obtain ⟨p0, p1, p2, hparts⟩ := three_parts _ hlen
      rw [hgood p0 p1 p2 hparts _ _ rfl]
      exact ⟨_, rfl⟩
    · rw [hbad hlen]
      exact ⟨_, rfl⟩
  · by_cases hlen : (strings.Split d.Id ':').length = 3
    · obtain ⟨p0, p1, p2, hparts⟩ := three_parts _ hlen
      rw [hgood p0 p1 p2 hparts _ _ rfl]
    · rw [hbad hlen]

theorem smbDelete_outcome (env : Env) (d : ResourceData) (calls : List Call)
    (hclient : env.NewNasClient = none) :
    ((strings.Split d.Id ':').length ≠ 3 →
      resourceAlicloudNasSmbAclAttachmentDelete env d calls
        = ⟨Exit.returned (some (WrapError (WrapError
            (Error.invalidResourceId d.Id 3 (strings.Split d.Id ':').length)))), d, calls⟩) ∧
    (∀ p0 p1 p2, strings.Split d.Id ':' = [p0, p1, p2] →
      (∀ s, Retry (d.Timeout TimeoutKey.TimeoutDelete) (attempt env "DisableSmbAcl"
          ((GoMap.empty.assign "RegionId" (Value.str env.RegionId)).assign
          "FileSystemId" (Value.str p0))) ⟨GoMap.empty, calls⟩ = (none, s) →
        resourceAlicloudNasSmbAclAttachmentDelete env d calls = ⟨Exit.returned none, d, s.calls⟩) ∧
      (∀ e s, Retry (d.Timeout TimeoutKey.TimeoutDelete) (attempt env "DisableSmbAcl"
          ((GoMap.empty.assign "RegionId" (Value.str env.RegionId)).assign
          "FileSystemId" (Value.str p0))) ⟨GoMap.empty, calls⟩ = (some e, s) →
        resourceAlicloudNasSmbAclAttachmentDelete env d calls
          = ⟨Exit.returned (if env.IsExpectedErrors e ["Forbidden.NasNotFound"] = true then none
              else some (WrapErrorf e env.DefaultErrorMsg
                [d.Id, "DisableSmbAcl", env.AlibabaCloudSdkGoERROR])), d, s.calls⟩) ∧
      (∃ m, (resourceAlicloudNasSmbAclAttachmentDelete env d calls).calls
        = calls ++ List.replicate (m + 1) (Call.DoRequest "DisableSmbAcl"
          ((GoMap.empty.assign "RegionId" (Value.str env.RegionId)).assign
          "FileSystemId" (Value.str p0))))) ∧
    (∃ err, (resourceAlicloudNasSmbAclAttachmentDelete env d calls).exit = Exit.returned err) ∧
    (resourceAlicloudNasSmbAclAttachmentDelete env d calls).d = d := by
  have hbad : (strings.Split d.Id ':').length ≠ 3 →
      resourceAlicloudNasSmbAclAttachmentDelete env d calls
        = ⟨Exit.returned (some (WrapError (WrapError
            (Error.invalidResourceId d.Id 3 (strings.Split d.Id ':').length)))), d, calls⟩ := by
    intro hlen
    simp only [resourceAlicloudNasSmbAclAttachmentDelete, hclient, ParseResourceId_of_length_ne d.Id hlen]
  have hgood : ∀ p0 p1 p2, strings.Split d.Id ':' = [p0, p1, p2] →
      ∀ r s, Retry (d.Timeout TimeoutKey.TimeoutDelete) (attempt env "DisableSmbAcl"
          ((GoMap.empty.assign "RegionId" (Value.str env.RegionId)).assign
          "FileSystemId" (Value.str p0))) ⟨GoMap.empty, calls⟩ = (r, s) →
        resourceAlicloudNasSmbAclAttachmentDelete env d calls
          = ⟨Exit.returned (match r with
              | none => none
              | some e => if env.IsExpectedErrors e ["Forbidden.NasNotFound"] = true then none
                else some (WrapErrorf e env.DefaultErrorMsg
                  [d.Id, "DisableSmbAcl", env.AlibabaCloudSdkGoERROR])), d, s.calls⟩ := by
    intro p0 p1 p2 hparts r s hR
    have hparse : ParseResourceId d.Id 3 = .ok [p0, p1, p2] := by
      rw [ParseResourceId_of_length_eq d.Id (by rw [hparts]; rfl), hparts]
    have hreq := smbDelete_request_three env p0 p1 p2
    cases r with
    | none => simp only [resourceAlicloudNasSmbAclAttachmentDelete, hclient, hparse, hreq, hR]
    | some e =>
      cases hx : env.IsExpectedErrors e ["Forbidden.NasNotFound"] <;>
        simp [resourceAlicloudNasSmbAclAttachmentDelete, hclient, hparse, hreq, hR, hx]
  refine ⟨hbad, ?_, ?_, ?_⟩
  · intro p0 p1 p2 hparts
    refine ⟨fun s hR => hgood p0 p1 p2 hparts none s hR,
      fun e s hR => hgood p0 p1 p2 hparts (some e) s hR, ?_⟩
    obtain ⟨m, hm⟩ := Retry_calls env "DisableSmbAcl"
      ((GoMap.empty.assign "RegionId" (Value.str env.RegionId)).assign
          "FileSystemId" (Value.str p0))
      (d.Timeout TimeoutKey.TimeoutDelete) ⟨GoMap.empty, calls⟩
    refine ⟨m, ?_⟩
    rw [hgood p0 p1 p2 hparts _ _ rfl]
    exact hm
  · by_cases hlen : (strings.Split d.Id ':').length = 3
    · obtain ⟨p0, p1, p2, hparts⟩ := three_parts _ hlen
      rw [hgood p0 p1 p2 hparts _ _ rfl]
      exact ⟨_, rfl⟩
    · rw [hbad hlen]
      exact ⟨_, rfl⟩
  · by_cases hlen : (strings.Split d.Id ':').length = 3
    · obtain ⟨p0, p1, p2, hparts⟩ := three_parts _ hlen
      rw [hgood p0 p1 p2 hparts _ _ rfl]
    · rw [hbad hlen]

/-- C4: with the client obtained, each Delete handler returns an error if
and only if either the id does not split into exactly 3 parts, or the retried
call ends with an error that is not among the expected errors
["Forbidden.NasNotFound"].  In the first case no remote call is made and the
error of `ParseResourceId` is returned.  On an id of three parts the request
carries the region and the parts of the id (the access rule: AccessGroupName,
AccessRuleId, FileSystemType; the SMB ACL: FileSystemId), every call made is
that request, and Delete returns nil when the retried call succeeds, nil when
it ends with an expected error, and the error wrapped by `WrapErrorf`
otherwise.  Delete never panics and never changes the resource data. -/
theorem Delete_error_iff (env : Env) (d : ResourceData) (calls : List Call)
    (hclient : env.NewNasClient = none) :
    ((((∃ err, (resourceAlicloudNasAccessRuleDelete env d calls).exit
        = Exit.returned (some err)) ↔
      ((strings.Split d.Id ':').length ≠ 3 ∨
        ∃ parts request e s, ParseResourceId d.Id 3 = .ok parts ∧
          resourceAlicloudNasAccessRuleDelete.request env parts = .ok request ∧
          Retry (d.Timeout TimeoutKey.TimeoutDelete)
            (attempt env "DeleteAccessRule" request) ⟨GoMap.empty, calls⟩ = (some e, s) ∧
          env.IsExpectedErrors e ["Forbidden.NasNotFound"] = false)) ∧
    ((strings.Split d.Id ':').length ≠ 3 →
      (resourceAlicloudNasAccessRuleDelete env d calls).calls = calls) ∧
    (∀ parts request e s, ParseResourceId d.Id 3 = .ok parts →
      resourceAlicloudNasAccessRuleDelete.request env parts = .ok request →
      Retry (d.Timeout TimeoutKey.TimeoutDelete)
        (attempt env "DeleteAccessRule" request) ⟨GoMap.empty, calls⟩ = (some e, s) →
      env.IsExpectedErrors e ["Forbidden.NasNotFound"] = true →
      (resourceAlicloudNasAccessRuleDelete env d calls).exit = Exit.returned none)) ∧
    ((strings.Split d.Id ':').length ≠ 3 →
      resourceAlicloudNasAccessRuleDelete env d calls
        = ⟨Exit.returned (some (WrapError (WrapError
            (Error.invalidResourceId d.Id 3 (strings.Split d.Id ':').length)))), d, calls⟩) ∧
    (∀ p0 p1 p2, strings.Split d.Id ':' = [p0, p1, p2] →
      (∀ s, Retry (d.Timeout TimeoutKey.TimeoutDelete) (attempt env "DeleteAccessRule"
          ((((GoMap.empty.assign "RegionId" (Value.str env.RegionId)).assign
          "AccessGroupName" (Value.str p0)).assign "AccessRuleId" (Value.str p1)).assign
          "FileSystemType" (Value.str p2))) ⟨GoMap.empty, calls⟩ = (none, s) →
        resourceAlicloudNasAccessRuleDelete env d calls = ⟨Exit.returned none, d, s.calls⟩) ∧
      (∀ e s, Retry (d.Timeout TimeoutKey.TimeoutDelete) (attempt env "DeleteAccessRule"
          ((((GoMap.empty.assign "RegionId" (Value.str env.RegionId)).assign
          "AccessGroupName" (Value.str p0)).assign "AccessRuleId" (Value.str p1)).assign
          "FileSystemType" (Value.str p2))) ⟨GoMap.empty, calls⟩ = (some e, s) →
        resourceAlicloudNasAccessRuleDelete env d calls
          = ⟨Exit.returned (if env.IsExpectedErrors e ["Forbidden.NasNotFound"] = true then none
              else some (WrapErrorf e env.DefaultErrorMsg
                [d.Id, "DeleteAccessRule", env.AlibabaCloudSdkGoERROR])), d, s.calls⟩) ∧
      (∃ m, (resourceAlicloudNasAccessRuleDelete env d calls).calls
        = calls ++ List.replicate (m + 1) (Call.DoRequest "DeleteAccessRule"
          ((((GoMap.empty.assign "RegionId" (Value.str env.RegionId)).assign
          "AccessGroupName" (Value.str p0)).assign "AccessRuleId" (Value.str p1)).assign
          "FileSystemType" (Value.str p2))))) ∧
    (∃ err, (resourceAlicloudNasAccessRuleDelete env d calls).exit = Exit.returned err) ∧
    (resourceAlicloudNasAccessRuleDelete env d calls).d = d) ∧
    ((((∃ err, (resourceAlicloudNasSmbAclAttachmentDelete env d calls).exit
        = Exit.returned (some err)) ↔
      ((strings.Split d.Id ':').length ≠ 3 ∨
        ∃ parts request e s, ParseResourceId d.Id 3 = .ok parts ∧
          resourceAlicloudNasSmbAclAttachmentDelete.request env parts = .ok request ∧
          Retry (d.Timeout TimeoutKey.TimeoutDelete)
            (attempt env "DisableSmbAcl" request) ⟨GoMap.empty, calls⟩ = (some e, s) ∧
          env.IsExpectedErrors e ["Forbidden.NasNotFound"] = false)) ∧
    ((strings.Split d.Id ':').length ≠ 3 →
      (resourceAlicloudNasSmbAclAttachmentDelete env d calls).calls = calls) ∧
    (∀ parts request e s, ParseResourceId d.Id 3 = .ok parts →
      resourceAlicloudNasSmbAclAttachmentDelete.request env parts = .ok request →
      Retry (d.Timeout TimeoutKey.TimeoutDelete)
        (attempt env "DisableSmbAcl" request) ⟨GoMap.empty, calls⟩ = (some e, s) →
      env.IsExpectedErrors e ["Forbidden.NasNotFound"] = true →
      (resourceAlicloudNasSmbAclAttachmentDelete env d calls).exit = Exit.returned none)) ∧
    ((strings.Split d.Id ':').length ≠ 3 →
      resourceAlicloudNasSmbAclAttachmentDelete env d calls
        = ⟨Exit.returned (some (WrapError (WrapError
            (Error.invalidResourceId d.Id 3 (strings.Split d.Id ':').length)))), d, calls⟩) ∧
    (∀ p0 p1 p2, strings.Split d.Id ':' = [p0, p1, p2] →
      (∀ s, Retry (d.Timeout TimeoutKey.TimeoutDelete) (attempt env "DisableSmbAcl"
          ((GoMap.empty.assign "RegionId" (Value.str env.RegionId)).assign
          "FileSystemId" (Value.str p0))) ⟨GoMap.empty, calls⟩ = (none, s) →
        resourceAlicloudNasSmbAclAttachmentDelete env d calls = ⟨Exit.returned none, d, s.calls⟩) ∧
      (∀ e s, Retry (d.Timeout TimeoutKey.TimeoutDelete) (attempt env "DisableSmbAcl"
          ((GoMap.empty.assign "RegionId" (Value.str env.RegionId)).assign
          "FileSystemId" (Value.str p0))) ⟨GoMap.empty, calls⟩ = (some e, s) →
        resourceAlicloudNasSmbAclAttachmentDelete env d calls
          = ⟨Exit.returned (if env.IsExpectedErrors e ["Forbidden.NasNotFound"] = true then none
              else some (WrapErrorf e env.DefaultErrorMsg
                [d.Id, "DisableSmbAcl", env.AlibabaCloudSdkGoERROR])), d, s.calls⟩) ∧
      (∃ m, (resourceAlicloudNasSmbAclAttachmentDelete env d calls).calls
        = calls ++ List.replicate (m + 1) (Call.DoRequest "DisableSmbAcl"
          ((GoMap.empty.assign "RegionId" (Value.str env.RegionId)).assign
          "FileSystemId" (Value.str p0))))) ∧
    (∃ err, (resourceAlicloudNasSmbAclAttachmentDelete env d calls).exit = Exit.returned err) ∧
    (resourceAlicloudNasSmbAclAttachmentDelete env d calls).d = d) :=
  ⟨⟨accessRuleDelete_spec env d calls hclient, accessRuleDelete_outcome env d calls hclient⟩,
   ⟨smbDelete_spec env d calls hclient, smbDelete_outcome env d calls hclient⟩⟩

/-- Witness of C4: on the two-part id "grp:r-1" the access rule Delete returns
the parse error and makes no call; on "grp:r-1:standard" it sends one
DeleteAccessRule request carrying the three parts and returns nil; the SMB ACL
Delete on "fs-1:a2V5dGFi:0cc175b9" sends one DisableSmbAcl request carrying
FileSystemId = "fs-1" and returns nil; and where the file system has vanished
the access rule Delete returns nil after one attempt. -/
theorem Delete_error_iff_witness :
    resourceAlicloudNasAccessRuleDelete sampleEnv { sampleRule with id := "grp:r-1" } []
      = ⟨Exit.returned (some (WrapError (WrapError
          (Error.invalidResourceId "grp:r-1" 3 2)))), { sampleRule with id := "grp:r-1" }, []⟩ ∧
    resourceAlicloudNasAccessRuleDelete sampleEnv settledRule []
      = ⟨Exit.returned none, settledRule,
          [Call.DoRequest "DeleteAccessRule"
            ⟨[("FileSystemType", Value.str "standard"), ("AccessRuleId", Value.str "r-1"),
              ("AccessGroupName", Value.str "grp"), ("RegionId", Value.str "cn-hangzhou")]⟩]⟩ ∧
    resourceAlicloudNasSmbAclAttachmentDelete sampleEnv rekeyedAttachment []
      = ⟨Exit.returned none, rekeyedAttachment,
          [Call.DoRequest "DisableSmbAcl"
            ⟨[("FileSystemId", Value.str "fs-1"), ("RegionId", Value.str "cn-hangzhou")]⟩]⟩ ∧
    resourceAlicloudNasAccessRuleDelete nasGoneEnv settledRule []
      = ⟨Exit.returned none, settledRule,
          [Call.DoRequest "DeleteAccessRule"
            ⟨[("FileSystemType", Value.str "standard"), ("AccessRuleId", Value.str "r-1"),
              ("AccessGroupName", Value.str "grp"), ("RegionId", Value.str "cn-hangzhou")]⟩]⟩ :=
  ⟨(Delete_error_iff sampleEnv { sampleRule with id := "grp:r-1" } [] rfl).1.2.1
      (by decide),
   ((Delete_error_iff sampleEnv settledRule [] rfl).1.2.2.1 "grp" "r-1" "standard"
      (by decide)).1 ⟨⟨[("AccessRuleId", Value.str "r-1")]⟩, _⟩ rfl,
   ((Delete_error_iff sampleEnv rekeyedAttachment [] rfl).2.2.2.1 "fs-1" "a2V5dGFi" "0cc175b9"
      (by decide)).1 ⟨⟨[("AccessRuleId", Value.str "r-1")]⟩, _⟩ rfl,
   (((Delete_error_iff nasGoneEnv settledRule [] rfl).1.2.2.1 "grp" "r-1" "standard"
      (by decide)).2.1 (Error.remote "Forbidden.NasNotFound") ⟨GoMap.empty, _⟩ rfl).trans
      (by decide)⟩

end Alicloud
